import Mathlib

/-!
Shallow embedding of the project-management backend (FastAPI + SQLAlchemy)
found under src/backend/app, together with theorems about the behaviour of
its request handlers.

Modelling conventions:
- Database rows are Lean structures mirroring the SQLAlchemy models in
  app/models.py.  UUID columns are modelled as Nat identifiers; the
  uuid4 default is modelled by a fresh-id counter on the database state.
- Timestamps are Nat.  Handlers that stamp rows take a `now` argument.
  The server-managed updated_at column is never read by any handler, so it
  is omitted from the row structures.
- A SQLAlchemy query `filter(...).first()` with no order_by is modelled by
  List.find?; `filter(...).order_by(k).all()` by a stable insertion sort
  on the filtered list (Python sorted and SQL ORDER BY are modelled the
  same way); `.all()` with no order_by by List.filter.
- HTTP error responses are modelled by an error type carrying the detail
  string; handlers return Except.
-/

namespace Capstone

/-- HTTP error responses raised by the handlers (app routers). -/
inductive ApiError where
  | notFound (detail : String)
  | badRequest (detail : String)
  deriving DecidableEq, Repr

/-- A handler either fails with an HTTP error or returns a value. -/
abbrev Result (α : Type) := Except ApiError α

instance {ε α : Type} [DecidableEq ε] [DecidableEq α] :
    DecidableEq (Except ε α) := fun x y =>
  match x, y with
  | .error e, .error f =>
    if h : e = f then isTrue (by rw [h]) else isFalse (fun hc => by cases hc; exact h rfl)
  | .ok a, .ok b =>
    if h : a = b then isTrue (by rw [h]) else isFalse (fun hc => by cases hc; exact h rfl)
  | .error _, .ok _ => isFalse (fun hc => by cases hc)
  | .ok _, .error _ => isFalse (fun hc => by cases hc)

/-- models.py User row (updated_at omitted, never read by a handler). -/
structure User where
  id : Nat
  clerk_id : String
  email : String
  first_name : Option String
  last_name : Option String
  created_at : Nat
  deleted_at : Option Nat
  deriving DecidableEq, Repr

/-- models.py Project row. -/
structure Project where
  project_id : Nat
  name : String
  owner_id : Nat
  roles : Option (List String)
  created_at : Nat
  deleted_at : Option Nat
  deriving DecidableEq, Repr

/-- models.py ProjectSwimLane row. -/
structure ProjectSwimLane where
  swim_lane_id : Nat
  project_id : Nat
  name : String
  order : Int
  created_at : Nat
  deleted_at : Option Nat
  deriving DecidableEq, Repr

/-- models.py ProjectUserRole row. -/
structure ProjectUserRole where
  id : Nat
  project_id : Nat
  user_id : Nat
  role : String
  created_at : Nat
  deleted_at : Option Nat
  deriving DecidableEq, Repr

/-- models.py Task row. -/
structure Task where
  task_id : Nat
  project_id : Nat
  project_swim_lane_id : Nat
  title : String
  description : Option String
  assigned_to : Option Nat
  created_by : Nat
  created_at : Nat
  deleted_at : Option Nat
  deriving DecidableEq, Repr

/-- One entry of the JSONB statuses field of a ProjectTemplate:
a dict with name and order, as written by create_template_from_project. -/
structure TemplateStatus where
  name : String
  order : Int
  deriving DecidableEq, Repr

/-- One entry of the JSONB users field of a ProjectTemplate: a dict with a
stringified user_id and a role, as written by create_template_from_project. -/
structure TemplateUser where
  user_id : String
  role : String
  deriving DecidableEq, Repr

/-- One entry of the JSONB tasks field of a ProjectTemplate, as written by
create_template_from_project.  assigned_to is a stringified user id or
JSON null. -/
structure TemplateTask where
  title : String
  description : Option String
  status_order : Int
  assigned_to : Option String
  deriving DecidableEq, Repr

/-- models.py ProjectTemplate row.  The four JSONB columns are nullable. -/
structure ProjectTemplate where
  template_id : Nat
  name : String
  description : Option String
  owner_id : Nat
  statuses : Option (List TemplateStatus)
  roles : Option (List String)
  users : Option (List TemplateUser)
  tasks : Option (List TemplateTask)
  created_at : Nat
  deleted_at : Option Nat
  deriving DecidableEq, Repr

/-- The database state seen by one request: one list per table, plus a
counter supplying fresh row ids (modelling uuid4 defaults). -/
structure DB where
  users : List User
  projects : List Project
  swim_lanes : List ProjectSwimLane
  user_roles : List ProjectUserRole
  tasks : List Task
  templates : List ProjectTemplate
  next_id : Nat
  deriving DecidableEq, Repr

/-- Every row id (and foreign key) already present is below the fresh-id
counter, so ids drawn from the counter are fresh. -/
def DB.wf (db : DB) : Bool :=
  db.users.all (fun u => u.id < db.next_id) &&
  db.projects.all (fun p => p.project_id < db.next_id && p.owner_id < db.next_id) &&
  db.swim_lanes.all (fun l => l.swim_lane_id < db.next_id && l.project_id < db.next_id) &&
  db.user_roles.all (fun r => r.id < db.next_id && r.project_id < db.next_id) &&
  db.tasks.all (fun t => t.task_id < db.next_id && t.project_id < db.next_id) &&
  db.templates.all (fun t => t.template_id < db.next_id)

/-- Python truthiness of an optional JSON list (None and [] are falsy),
as used by the template-expansion branches. -/
def listTruthy {α : Type} (o : Option (List α)) : Bool :=
  match o with
  | none => false
  | some l => !l.isEmpty

/-- Python truthiness of an optional JSON string (None and "" are falsy),
as used on a template task assigned_to field. -/
def strTruthy (o : Option String) : Bool :=
  match o with
  | none => false
  | some s => !s.isEmpty

/-- Value of a hex digit, case-insensitive. -/
def hexDigit? (c : Char) : Option Nat :=
  if c.isDigit then some (c.toNat - 48)
  else if 'a' ≤ c && c ≤ 'f' then some (c.toNat - 87)
  else if 'A' ≤ c && c ≤ 'F' then some (c.toNat - 55)
  else none

/-- Model of the Python standard-library uuid.UUID constructor (an external
collaborator of the repository): hyphens are stripped, the remaining text
must be exactly 32 hex digits, and the value is the 128-bit number they
denote; anything else raises ValueError, modelled as none. -/
def parseUUID (s : String) : Option Nat :=
  let cs := s.toList.filter (fun c => c ≠ '-')
  if cs.length = 32 then
    cs.foldl
      (fun acc c =>
        match acc, hexDigit? c with
        | some a, some d => some (a * 16 + d)
        | _, _ => none)
      (some 0)
  else none

/-- Stable insertion of an element into a list sorted by an Int key:
the element goes before the first strictly larger-keyed element, after
equal-keyed ones already present later in the recursion (matching the
stability of Python sorted / SQL ORDER BY as produced here). -/
def insertByKey {α : Type} (k : α → Int) (x : α) : List α → List α
  | [] => [x]
  | y :: ys => if k x ≤ k y then x :: y :: ys else y :: insertByKey k x ys

/-- Stable insertion sort by an Int key. -/
def sortByKey {α : Type} (k : α → Int) : List α → List α
  | [] => []
  | x :: xs => insertByKey k x (sortByKey k xs)

/-- Map a function over a list while threading a counter of fresh ids,
modelling a loop that inserts one fresh-id row per element. -/
def mapWithIds {α β : Type} (f : Nat → α → β) (start : Nat) : List α → List β
  | [] => []
  | x :: xs => f start x :: mapWithIds f (start + 1) xs

/-- Replace the first element satisfying the predicate (the row an ORM
query .first() returned and the handler then mutated). -/
def replaceFirst {α : Type} (p : α → Bool) (x : α) : List α → List α
  | [] => []
  | y :: ys => if p y then x :: ys else y :: replaceFirst p x ys

/-- schemas.py UserCreate. -/
structure UserCreate where
  clerk_id : String
  email : String
  first_name : Option String
  last_name : Option String
  deriving DecidableEq, Repr

/-- schemas.py ProjectUpdate, under model_dump with exclude_unset: the outer
Option records whether the field was present in the request.  A present
name is a string (the column is non-nullable); a present roles value may
itself be JSON null. -/
structure ProjectUpdate where
  name : Option String
  roles : Option (Option (List String))
  deriving DecidableEq, Repr

/-- Detail string of the user-sync 404 shared by the routers. -/
def userNotSyncedMsg : String :=
  "User not found. Please ensure your user is synced to the database."

/-- Detail string of the project-ownership 404 shared by the routers. -/
def projectNotFoundMsg : String :=
  "Project not found or you do not have access to it."

/-- Caller resolution shared by every protected router: look up the User
row by clerk id.  The code applies no deleted_at filter here. -/
def findCaller (db : DB) (clerk_user_id : String) : Option User :=
  db.users.find? (fun u => u.clerk_id == clerk_user_id)

/-- Ownership lookup shared by the routers: the project by id, owned by
the resolved user, not soft-deleted. -/
def findOwnedProject (db : DB) (project_id owner_id : Nat) : Option Project :=
  db.projects.find? (fun p =>
    p.project_id == project_id && p.owner_id == owner_id && p.deleted_at.isNone)

/-- users.py create_or_update_user (POST /api/users): upsert keyed on
clerk_id; on create, reject an email already present in the users table
(the query has no deleted_at filter). -/
def create_or_update_user (db : DB) (d : UserCreate) (now : Nat) :
    Result (DB × User) :=
  match db.users.find? (fun u => u.clerk_id == d.clerk_id) with
  | some existing =>
    let updated : User :=
      { existing with
        email := d.email, first_name := d.first_name, last_name := d.last_name }
    .ok ({ db with
            users := replaceFirst (fun u => u.clerk_id == d.clerk_id) updated db.users },
         updated)
  | none =>
    match db.users.find? (fun u => u.email == d.email) with
    | some _ => .error (.badRequest "User with this email already exists")
    | none =>
      let newUser : User :=
        { id := db.next_id, clerk_id := d.clerk_id, email := d.email,
          first_name := d.first_name, last_name := d.last_name,
          created_at := now, deleted_at := none }
      .ok ({ db with users := db.users ++ [newUser], next_id := db.next_id + 1 },
           newUser)

/-- users.py get_user_by_clerk_id (GET /api/users/:clerk_id).  The query
filters only on clerk_id, with no deleted_at condition. -/
def get_user_by_clerk_id (db : DB) (clerk_id : String) : Result User :=
  match db.users.find? (fun u => u.clerk_id == clerk_id) with
  | some u => .ok u
  | none => .error (.notFound "User not found")

/-- projects.py get_project (GET /api/projects/:project_id). -/
def get_project (db : DB) (project_id : Nat) (clerk : String) : Result Project :=
  match findCaller db clerk with
  | none => .error (.notFound userNotSyncedMsg)
  | some user =>
    match findOwnedProject db project_id user.id with
    | none => .error (.notFound projectNotFoundMsg)
    | some p => .ok p

/-- projects.py get_user_projects (GET /api/projects): the caller's
non-deleted projects, ordered by created_at descending. -/
def get_user_projects (db : DB) (clerk : String) : Result (List Project) :=
  match findCaller db clerk with
  | none => .error (.notFound userNotSyncedMsg)
  | some user =>
    .ok (sortByKey (fun p => -(p.created_at : Int))
      (db.projects.filter (fun p => p.owner_id == user.id && p.deleted_at.isNone)))

/-- The field merge performed by projects.py update_project: setattr for
each field present in the request. -/
def applyProjectUpdate (p : Project) (d : ProjectUpdate) : Project :=
  { p with name := d.name.getD p.name, roles := d.roles.getD p.roles }

/-- projects.py update_project (PUT /api/projects/:project_id). -/
def update_project (db : DB) (project_id : Nat) (d : ProjectUpdate)
    (clerk : String) : Result (DB × Project) :=
  match findCaller db clerk with
  | none => .error (.notFound userNotSyncedMsg)
  | some user =>
    match findOwnedProject db project_id user.id with
    | none => .error (.notFound projectNotFoundMsg)
    | some p =>
      let p2 := applyProjectUpdate p d
      .ok ({ db with
              projects := replaceFirst
                (fun q => q.project_id == project_id && q.owner_id == user.id &&
                  q.deleted_at.isNone) p2 db.projects },
           p2)

/-- The three default swim lanes created for a fresh project:
Backlog(0), To Do(1), Done(2). -/
def defaultLanes (pid start now : Nat) : List ProjectSwimLane :=
  [ { swim_lane_id := start, project_id := pid, name := "Backlog", order := 0,
      created_at := now, deleted_at := none },
    { swim_lane_id := start + 1, project_id := pid, name := "To Do", order := 1,
      created_at := now, deleted_at := none },
    { swim_lane_id := start + 2, project_id := pid, name := "Done", order := 2,
      created_at := now, deleted_at := none } ]

/-- projects.py create_project (POST /api/projects): a new project owned
by the caller plus the three default swim lanes. -/
def create_project (db : DB) (name : String) (clerk : String) (now : Nat) :
    Result (DB × Project) :=
  match findCaller db clerk with
  | none => .error (.notFound userNotSyncedMsg)
  | some user =>
    let newProject : Project :=
      { project_id := db.next_id, name := name, owner_id := user.id,
        roles := none, created_at := now, deleted_at := none }
    let lanes := defaultLanes newProject.project_id (db.next_id + 1) now
    .ok ({ db with
            projects := db.projects ++ [newProject],
            swim_lanes := db.swim_lanes ++ lanes,
            next_id := db.next_id + 4 },
         newProject)

/-- Modelled from the spec: the request schema ProjectCreateFromTemplate is
imported by the projects router from app/schemas.py but is absent from the
sources; per spec section 4.3 the inputs are a target name, the source
project id, and the include flags for statuses, roles, users, tasks and
keep_assignees. -/
structure ProjectCreateFromTemplate where
  source_project_id : Nat
  name : String
  include_statuses : Bool
  include_roles : Bool
  include_users : Bool
  include_tasks : Bool
  keep_assignees : Bool
  deriving DecidableEq, Repr

/-- Modelled from the spec: the request schema ProjectCreateFromSavedTemplate
is imported by the templates router but absent from the sources; per spec
section 4.3 the inputs are a saved template id, a target name and
keep_assignees. -/
structure ProjectCreateFromSavedTemplate where
  template_id : Nat
  name : String
  keep_assignees : Bool
  deriving DecidableEq, Repr

/-- The re-query both expansion paths run after inserting the default
lanes: the lanes of the new project (no deleted_at filter in the code),
ordered by order, first row id. -/
def firstLaneQuery (lanes : List ProjectSwimLane) (pid : Nat) : Option Nat :=
  (sortByKey (fun l => l.order)
    (lanes.filter (fun l => l.project_id == pid))).head?.map
      (fun l => l.swim_lane_id)

/-- The statuses branch of projects.py create_project_from_template: copy
each non-deleted source lane (name, order) in order-sorted sequence under
the new project, recording the id of the first lane created. -/
def cloneLanesFromSource (db : DB) (src_project_id pid start now : Nat) :
    List ProjectSwimLane × Option Nat :=
  let srcLanes := sortByKey (fun l => l.order)
    (db.swim_lanes.filter (fun l =>
      l.project_id == src_project_id && l.deleted_at.isNone))
  let newLanes := mapWithIds
    (fun i sl =>
      { swim_lane_id := i, project_id := pid, name := sl.name,
        order := sl.order, created_at := now, deleted_at := none })
    start srcLanes
  (newLanes, newLanes.head?.map (fun l => l.swim_lane_id))

/-- The statuses branch of templates.py create_project_from_saved_template:
create one lane per stored status, in order-sorted sequence, recording the
id of the first lane created. -/
def lanesFromStatuses (statuses : List TemplateStatus) (pid start now : Nat) :
    List ProjectSwimLane × Option Nat :=
  let sorted := sortByKey (fun s => s.order) statuses
  let newLanes := mapWithIds
    (fun i s =>
      { swim_lane_id := i, project_id := pid, name := s.name,
        order := s.order, created_at := now, deleted_at := none })
    start sorted
  (newLanes, newLanes.head?.map (fun l => l.swim_lane_id))

/-- The default branch shared by both expanders: insert the three default
lanes, then re-query the new project for its lowest-order lane id. -/
def defaultLanesWithFirst (db : DB) (pid start now : Nat) :
    List ProjectSwimLane × Option Nat :=
  let lanes := defaultLanes pid start now
  (lanes, firstLaneQuery (db.swim_lanes ++ lanes) pid)

/-- projects.py create_project_from_template (POST
/api/projects/from-template): clone a caller-owned live project. -/
def create_project_from_template (db : DB) (d : ProjectCreateFromTemplate)
    (clerk : String) (now : Nat) : Result (DB × Project) :=
  match findCaller db clerk with
  | none => .error (.notFound userNotSyncedMsg)
  | some user =>
    match findOwnedProject db d.source_project_id user.id with
    | none =>
      .error (.notFound "Source project not found or you do not have access to it.")
    | some src =>
      let newProject : Project :=
        { project_id := db.next_id, name := d.name, owner_id := user.id,
          roles := if d.include_roles then src.roles else none,
          created_at := now, deleted_at := none }
      let pid := newProject.project_id
      let lanesAndFirst : List ProjectSwimLane × Option Nat :=
        if d.include_statuses then
          cloneLanesFromSource db src.project_id pid (db.next_id + 1) now
        else
          defaultLanesWithFirst db pid (db.next_id + 1) now
      let newLanes := lanesAndFirst.1
      let first_swim_lane_id := lanesAndFirst.2
      let idAfterLanes := db.next_id + 1 + newLanes.length
      let newRoles : List ProjectUserRole :=
        if d.include_users then
          mapWithIds
            (fun i r =>
              { id := i, project_id := pid, user_id := r.user_id,
                role := r.role, created_at := now, deleted_at := none })
            idAfterLanes
            (db.user_roles.filter (fun r =>
              r.project_id == src.project_id && r.deleted_at.isNone))
        else []
      let idAfterRoles := idAfterLanes + newRoles.length
      let newTasks : List Task :=
        match d.include_tasks && d.include_statuses, first_swim_lane_id with
        | true, some fl =>
          mapWithIds
            (fun i st =>
              { task_id := i, project_id := pid, project_swim_lane_id := fl,
                title := st.title, description := st.description,
                assigned_to :=
                  if d.keep_assignees && d.include_users && st.assigned_to.isSome
                  then st.assigned_to else none,
                created_by := user.id, created_at := now, deleted_at := none })
            idAfterRoles
            (db.tasks.filter (fun t =>
              t.project_id == src.project_id && t.deleted_at.isNone))
        | _, _ => []
      .ok ({ db with
              projects := db.projects ++ [newProject],
              swim_lanes := db.swim_lanes ++ newLanes,
              user_roles := db.user_roles ++ newRoles,
              tasks := db.tasks ++ newTasks,
              next_id := idAfterRoles + newTasks.length },
           newProject)

/-- The user-role creation loop of create_project_from_saved_template: for
each template user entry, parse the stringified id (entries whose parse
raises are silently skipped), keep it only if it resolves to a non-deleted
User, and return both the created rows and the list of successfully added
user ids (valid_user_ids in the code). -/
def expandTemplateUsers (db : DB) (pid now : Nat) :
    Nat → List TemplateUser → List ProjectUserRole × List Nat
  | _, [] => ([], [])
  | start, u :: rest =>
    match parseUUID u.user_id with
    | none => expandTemplateUsers db pid now start rest
    | some uid =>
      match db.users.find? (fun x => x.id == uid && x.deleted_at.isNone) with
      | none => expandTemplateUsers db pid now start rest
      | some _ =>
        let tail := expandTemplateUsers db pid now (start + 1) rest
        ({ id := start, project_id := pid, user_id := uid, role := u.role,
           created_at := now, deleted_at := none } :: tail.1,
         uid :: tail.2)

/-- The per-task assignee rule of create_project_from_saved_template: keep
the assignee only when requested, the stored string truthy and parsing to
an id, and that id among the user ids just added to the new project. -/
def savedTemplateAssignee (keep : Bool) (valid : List Nat)
    (a : Option String) : Option Nat :=
  if keep && strTruthy a then
    match a with
    | some s =>
      match parseUUID s with
      | some aid => if valid.contains aid then some aid else none
      | none => none
    | none => none
  else none

/-- The user ids the saved-template expansion successfully adds as
ProjectUserRole rows (valid_user_ids in the code): entries whose
stringified id parses and resolves to a non-deleted user. -/
def validAssigneeIds (db : DB) (us : List TemplateUser) : List Nat :=
  us.filterMap (fun tu =>
    match parseUUID tu.user_id with
    | none => none
    | some uid =>
      match db.users.find? (fun x => x.id == uid && x.deleted_at.isNone) with
      | none => none
      | some _ => some uid)

/-- templates.py create_project_from_saved_template (POST
/api/templates/create-project): expand a caller-owned saved template. -/
def create_project_from_saved_template (db : DB)
    (d : ProjectCreateFromSavedTemplate) (clerk : String) (now : Nat) :
    Result (DB × Project) :=
  match findCaller db clerk with
  | none => .error (.notFound userNotSyncedMsg)
  | some user =>
    match db.templates.find? (fun t =>
        t.template_id == d.template_id && t.owner_id == user.id &&
        t.deleted_at.isNone) with
    | none =>
      .error (.notFound "Template not found or you do not have access to it.")
    | some template =>
      let newProject : Project :=
        { project_id := db.next_id, name := d.name, owner_id := user.id,
          roles := template.roles, created_at := now, deleted_at := none }
      let pid := newProject.project_id
      let lanesAndFirst : List ProjectSwimLane × Option Nat :=
        if listTruthy template.statuses then
          lanesFromStatuses (template.statuses.getD []) pid (db.next_id + 1) now
        else
          defaultLanesWithFirst db pid (db.next_id + 1) now
      let newLanes := lanesAndFirst.1
      let first_swim_lane_id := lanesAndFirst.2
      let idAfterLanes := db.next_id + 1 + newLanes.length
      let rolesAndValid : List ProjectUserRole × List Nat :=
        if listTruthy template.users then
          expandTemplateUsers db pid now idAfterLanes (template.users.getD [])
        else ([], [])
      let newRoles := rolesAndValid.1
      let valid_user_ids := rolesAndValid.2
      let idAfterRoles := idAfterLanes + newRoles.length
      let newTasks : List Task :=
        match listTruthy template.tasks, first_swim_lane_id with
        | true, some fl =>
          mapWithIds
            (fun i td =>
              { task_id := i, project_id := pid, project_swim_lane_id := fl,
                title := td.title, description := td.description,
                assigned_to := savedTemplateAssignee d.keep_assignees
                  valid_user_ids td.assigned_to,
                created_by := user.id, created_at := now, deleted_at := none })
            idAfterRoles (template.tasks.getD [])
        | _, _ => []
      .ok ({ db with
              projects := db.projects ++ [newProject],
              swim_lanes := db.swim_lanes ++ newLanes,
              user_roles := db.user_roles ++ newRoles,
              tasks := db.tasks ++ newTasks,
              next_id := idAfterRoles + newTasks.length },
           newProject)

/-- schemas.py ProjectUserRoleCreate. -/
structure ProjectUserRoleCreate where
  project_id : Nat
  user_id : Nat
  role : String
  deriving DecidableEq, Repr

/-- project_user_roles.py create_project_user_role (POST
/api/projects/:project_id/user-roles). -/
def create_project_user_role (db : DB) (path_project_id : Nat)
    (d : ProjectUserRoleCreate) (clerk : String) (now : Nat) :
    Result (DB × ProjectUserRole) :=
  match findCaller db clerk with
  | none => .error (.notFound userNotSyncedMsg)
  | some user =>
    match findOwnedProject db path_project_id user.id with
    | none => .error (.notFound projectNotFoundMsg)
    | some project =>
      if d.project_id ≠ path_project_id then
        .error (.badRequest "Project ID mismatch")
      else if listTruthy project.roles &&
          !(project.roles.getD []).contains d.role then
        .error (.badRequest
          ("Role " ++ d.role ++ " is not defined for this project"))
      else
        match db.users.find? (fun u => u.id == d.user_id) with
        | none => .error (.notFound "User not found")
        | some _ =>
          match db.user_roles.find? (fun r =>
              r.project_id == path_project_id && r.user_id == d.user_id &&
              r.role == d.role && r.deleted_at.isNone) with
          | some _ =>
            .error (.badRequest "This user already has this role for this project")
          | none =>
            let newRole : ProjectUserRole :=
              { id := db.next_id, project_id := d.project_id,
                user_id := d.user_id, role := d.role,
                created_at := now, deleted_at := none }
            .ok ({ db with
                    user_roles := db.user_roles ++ [newRole],
                    next_id := db.next_id + 1 },
                 newRole)

/-- schemas.py SwimLaneUpdate. -/
structure SwimLaneUpdate where
  name : Option String
  order : Option Int
  deriving DecidableEq, Repr

/-- schemas.py ProjectUserRoleUpdate. -/
structure ProjectUserRoleUpdate where
  role : Option String
  deriving DecidableEq, Repr

/-- tasks.py get_project_tasks (GET /api/tasks/project/:project_id): the
non-deleted tasks of a caller-owned project, ordered by created_at. -/
def get_project_tasks (db : DB) (project_id : Nat) (clerk : String) :
    Result (List Task) :=
  match findCaller db clerk with
  | none => .error (.notFound userNotSyncedMsg)
  | some user =>
    match findOwnedProject db project_id user.id with
    | none => .error (.notFound projectNotFoundMsg)
    | some _ =>
      .ok (sortByKey (fun t => (t.created_at : Int))
        (db.tasks.filter (fun t =>
          t.project_id == project_id && t.deleted_at.isNone)))

/-- project_user_roles.py get_project_user_roles (GET
/api/projects/:project_id/user-roles): the non-deleted roles of a
caller-owned project inner-joined with the users table; the join on the
unique user id is modelled by find? over users. -/
def get_project_user_roles (db : DB) (project_id : Nat) (clerk : String) :
    Result (List (ProjectUserRole × User)) :=
  match findCaller db clerk with
  | none => .error (.notFound userNotSyncedMsg)
  | some user =>
    match findOwnedProject db project_id user.id with
    | none => .error (.notFound projectNotFoundMsg)
    | some _ =>
      .ok ((db.user_roles.filter (fun r =>
          r.project_id == project_id && r.deleted_at.isNone)).filterMap
        (fun r => (db.users.find? (fun u => u.id == r.user_id)).map
          (fun u => (r, u))))

/-- templates.py get_templates (GET /api/templates): the caller's
non-deleted templates ordered by created_at descending. -/
def get_templates (db : DB) (clerk : String) : Result (List ProjectTemplate) :=
  match findCaller db clerk with
  | none => .error (.notFound userNotSyncedMsg)
  | some user =>
    .ok (sortByKey (fun t => -(t.created_at : Int))
      (db.templates.filter (fun t =>
        t.owner_id == user.id && t.deleted_at.isNone)))

/-- projects.py delete_project (DELETE /api/projects/:project_id): soft
delete of a caller-owned, non-deleted project. -/
def delete_project (db : DB) (project_id : Nat) (clerk : String) (now : Nat) :
    Result DB :=
  match findCaller db clerk with
  | none => .error (.notFound userNotSyncedMsg)
  | some user =>
    match findOwnedProject db project_id user.id with
    | none => .error (.notFound projectNotFoundMsg)
    | some p =>
      .ok { db with
              projects := replaceFirst
                (fun q => q.project_id == project_id && q.owner_id == user.id &&
                  q.deleted_at.isNone)
                { p with deleted_at := some now } db.projects }

/-- swim_lanes.py update_swim_lane (PUT /api/swim-lanes/:swim_lane_id):
the lane lookup filters deleted_at; name/order partial merge. -/
def update_swim_lane (db : DB) (swim_lane_id : Nat) (d : SwimLaneUpdate)
    (clerk : String) : Result (DB × ProjectSwimLane) :=
  match findCaller db clerk with
  | none => .error (.notFound userNotSyncedMsg)
  | some user =>
    match db.swim_lanes.find? (fun l =>
        l.swim_lane_id == swim_lane_id && l.deleted_at.isNone) with
    | none => .error (.notFound "Swim lane not found.")
    | some lane =>
      match findOwnedProject db lane.project_id user.id with
      | none => .error (.notFound projectNotFoundMsg)
      | some _ =>
        let lane2 :=
          { lane with name := d.name.getD lane.name,
                      order := d.order.getD lane.order }
        .ok ({ db with
                swim_lanes := replaceFirst
                  (fun l => l.swim_lane_id == swim_lane_id && l.deleted_at.isNone)
                  lane2 db.swim_lanes },
             lane2)

/-- swim_lanes.py delete_swim_lane (DELETE /api/swim-lanes/:swim_lane_id):
the lane lookup filters deleted_at; soft delete. -/
def delete_swim_lane (db : DB) (swim_lane_id : Nat) (clerk : String)
    (now : Nat) : Result DB :=
  match findCaller db clerk with
  | none => .error (.notFound userNotSyncedMsg)
  | some user =>
    match db.swim_lanes.find? (fun l =>
        l.swim_lane_id == swim_lane_id && l.deleted_at.isNone) with
    | none => .error (.notFound "Swim lane not found.")
    | some lane =>
      match findOwnedProject db lane.project_id user.id with
      | none => .error (.notFound projectNotFoundMsg)
      | some _ =>
        .ok { db with
                swim_lanes := replaceFirst
                  (fun l => l.swim_lane_id == swim_lane_id && l.deleted_at.isNone)
                  { lane with deleted_at := some now } db.swim_lanes }

/-- project_user_roles.py update_project_user_role (PUT
/api/projects/:project_id/user-roles/:user_role_id): the row lookup
filters deleted_at; only the role string may change, re-validated for
membership and duplicates excluding the row itself. -/
def update_project_user_role (db : DB) (path_project_id user_role_id : Nat)
    (d : ProjectUserRoleUpdate) (clerk : String) :
    Result (DB × ProjectUserRole) :=
  match findCaller db clerk with
  | none => .error (.notFound userNotSyncedMsg)
  | some user =>
    match findOwnedProject db path_project_id user.id with
    | none => .error (.notFound projectNotFoundMsg)
    | some project =>
      match db.user_roles.find? (fun r => r.id == user_role_id &&
          r.project_id == path_project_id && r.deleted_at.isNone) with
      | none => .error (.notFound "User role not found")
      | some user_role =>
        match d.role with
        | none => .ok (db, user_role)
        | some role2 =>
          if listTruthy project.roles &&
              !(project.roles.getD []).contains role2 then
            .error (.badRequest
              ("Role " ++ role2 ++ " is not defined for this project"))
          else
            match db.user_roles.find? (fun r =>
                r.project_id == path_project_id &&
                r.user_id == user_role.user_id && r.role == role2 &&
                r.id != user_role_id && r.deleted_at.isNone) with
            | some _ =>
              .error (.badRequest
                "This user already has this role for this project")
            | none =>
              let ur2 := { user_role with role := role2 }
              .ok ({ db with
                      user_roles := replaceFirst
                        (fun r => r.id == user_role_id &&
                          r.project_id == path_project_id &&
                          r.deleted_at.isNone)
                        ur2 db.user_roles },
                   ur2)

/-- project_user_roles.py delete_project_user_role (DELETE
/api/projects/:project_id/user-roles/:user_role_id): the row lookup
filters deleted_at; soft delete. -/
def delete_project_user_role (db : DB) (path_project_id user_role_id : Nat)
    (clerk : String) (now : Nat) : Result DB :=
  match findCaller db clerk with
  | none => .error (.notFound userNotSyncedMsg)
  | some user =>
    match findOwnedProject db path_project_id user.id with
    | none => .error (.notFound projectNotFoundMsg)
    | some _ =>
      match db.user_roles.find? (fun r => r.id == user_role_id &&
          r.project_id == path_project_id && r.deleted_at.isNone) with
      | none => .error (.notFound "User role not found")
      | some user_role =>
        .ok { db with
                user_roles := replaceFirst
                  (fun r => r.id == user_role_id &&
                    r.project_id == path_project_id && r.deleted_at.isNone)
                  { user_role with deleted_at := some now } db.user_roles }

/-- templates.py delete_template (DELETE /api/templates/:template_id):
the template lookup filters deleted_at; soft delete. -/
def delete_template (db : DB) (template_id : Nat) (clerk : String)
    (now : Nat) : Result DB :=
  match findCaller db clerk with
  | none => .error (.notFound userNotSyncedMsg)
  | some user =>
    match db.templates.find? (fun t => t.template_id == template_id &&
        t.owner_id == user.id && t.deleted_at.isNone) with
    | none =>
      .error (.notFound "Template not found or you do not have access to it.")
    | some template =>
      .ok { db with
              templates := replaceFirst
                (fun t => t.template_id == template_id &&
                  t.owner_id == user.id && t.deleted_at.isNone)
                { template with deleted_at := some now } db.templates }

/-- Modelled from the spec: the TaskUpdate schema is imported by the tasks
router but absent from the sources.  Per spec section 4.2 an update may
reassign the swim lane, reassign or clear the assignee, and edit title and
description, every field optional.  assigned_to distinguishes an absent
field (none) from a provided-but-falsy value (some none, which the handler
uses to clear) and a provided user id (some (some uid)). -/
structure TaskUpdate where
  project_swim_lane_id : Option Nat
  assigned_to : Option (Option Nat)
  title : Option String
  description : Option String
  deriving DecidableEq, Repr

/-- The swim-lane block of tasks.py update_task: if a lane is supplied it
must exist, be non-deleted and belong to the same project, else 400. -/
def taskLaneStep (db : DB) (task : Task) (sl? : Option Nat) : Result Task :=
  match sl? with
  | none => .ok task
  | some sl =>
    match db.swim_lanes.find? (fun l =>
        l.swim_lane_id == sl && l.project_id == task.project_id &&
        l.deleted_at.isNone) with
    | none =>
      .error (.badRequest "Swim lane not found or does not belong to this project.")
    | some _ => .ok { task with project_swim_lane_id := sl }

/-- The assignee block of tasks.py update_task: an absent field changes
nothing; a provided truthy id must resolve to a non-deleted user, else
400; a provided falsy value clears the assignee. -/
def taskAssigneeStep (db : DB) (t : Task) (a? : Option (Option Nat)) :
    Result Task :=
  match a? with
  | none => .ok t
  | some (some uid) =>
    match db.users.find? (fun u => u.id == uid && u.deleted_at.isNone) with
    | none => .error (.badRequest "Assigned user not found.")
    | some _ => .ok { t with assigned_to := some uid }
  | some none => .ok { t with assigned_to := none }

/-- The title block of tasks.py update_task: a provided title is stripped
and must be non-empty, else 400. -/
def taskTitleStep (t : Task) (title? : Option String) : Result Task :=
  match title? with
  | none => .ok t
  | some s =>
    if s.trim.isEmpty then .error (.badRequest "Title cannot be empty.")
    else .ok { t with title := s.trim }

/-- The description block of tasks.py update_task. -/
def taskDescriptionStep (t : Task) (description? : Option String) : Task :=
  match description? with
  | none => t
  | some ds => { t with description := some ds }

/-- tasks.py update_task (PUT /api/tasks/:task_id). -/
def update_task (db : DB) (task_id : Nat) (d : TaskUpdate) (clerk : String) :
    Result (DB × Task) :=
  match findCaller db clerk with
  | none => .error (.notFound userNotSyncedMsg)
  | some user =>
    match db.tasks.find? (fun t => t.task_id == task_id && t.deleted_at.isNone) with
    | none => .error (.notFound "Task not found.")
    | some task =>
      match findOwnedProject db task.project_id user.id with
      | none => .error (.notFound projectNotFoundMsg)
      | some _ =>
        match taskLaneStep db task d.project_swim_lane_id with
        | .error e => .error e
        | .ok t1 =>
          match taskAssigneeStep db t1 d.assigned_to with
          | .error e => .error e
          | .ok t2 =>
            match taskTitleStep t2 d.title with
            | .error e => .error e
            | .ok t3 =>
              let t4 := taskDescriptionStep t3 d.description
              .ok ({ db with
                      tasks := replaceFirst
                        (fun t => t.task_id == task_id && t.deleted_at.isNone)
                        t4 db.tasks },
                   t4)

/-- An empty database, base for the concrete example states below. -/
def DB.empty : DB :=
  { users := [], projects := [], swim_lanes := [], user_roles := [],
    tasks := [], templates := [], next_id := 0 }

/-- Example fixture: an active user. -/
def ownerW : User :=
  { id := 0, clerk_id := "c", email := "o@x", first_name := none,
    last_name := none, created_at := 0, deleted_at := none }

/-- Example fixture: a project owned by ownerW. -/
def projW : Project :=
  { project_id := 1, name := "P", owner_id := 0, roles := none,
    created_at := 0, deleted_at := none }

/-- Example fixture: a database holding ownerW and projW. -/
def dbW : DB :=
  { DB.empty with users := [ownerW], projects := [projW], next_id := 2 }

/-- Example fixture: a soft-deleted user. -/
def delUserW : User :=
  { id := 1, clerk_id := "cd", email := "d@x", first_name := none,
    last_name := none, created_at := 0, deleted_at := some 2 }

/-- Example fixture: a database whose only user is soft-deleted. -/
def dbDelW : DB :=
  { DB.empty with users := [delUserW], next_id := 2 }

/-- Example fixture: active owner, a project and a soft-deleted user. -/
def dbW5 : DB :=
  { DB.empty with users := [ownerW, delUserW], projects := [projW], next_id := 4 }

/-- Example fixture: a swim lane of projW. -/
def laneW : ProjectSwimLane :=
  { swim_lane_id := 2, project_id := 1, name := "L", order := 0,
    created_at := 0, deleted_at := none }

/-- Example fixture: a task of projW assigned to ownerW. -/
def taskW : Task :=
  { task_id := 3, project_id := 1, project_swim_lane_id := 2, title := "T",
    description := none, assigned_to := some 0, created_by := 0,
    created_at := 0, deleted_at := none }

/-- Example fixture: owner, project, one lane, one assigned task. -/
def dbW3 : DB :=
  { DB.empty with
    users := [ownerW], projects := [projW],
    swim_lanes := [laneW], tasks := [taskW], next_id := 4 }

/-- Example fixture: a saved template owned by ownerW with one status, two
user entries (one valid, one malformed) and two tasks (one assigned to the
valid user, one to a malformed string). -/
def tplW : ProjectTemplate :=
  { template_id := 2, name := "T", description := none, owner_id := 0,
    statuses := some [{ name := "A", order := 0 }],
    roles := none,
    users := some
      [ { user_id := "00000000-0000-0000-0000-000000000000", role := "dev" },
        { user_id := "bad", role := "dev" } ],
    tasks := some
      [ { title := "t1", description := none, status_order := 0,
          assigned_to := some "00000000-0000-0000-0000-000000000000" },
        { title := "t2", description := none, status_order := 0,
          assigned_to := some "bad" } ],
    created_at := 0, deleted_at := none }

/-- Example fixture: owner plus the saved template tplW. -/
def dbW2 : DB :=
  { DB.empty with users := [ownerW], templates := [tplW], next_id := 3 }

/-- Example fixture: a live project used by the soft-delete witness. -/
def projW5 : Project :=
  { project_id := 2, name := "P2", owner_id := 0, roles := none,
    created_at := 0, deleted_at := none }

/-- Example fixture: a soft-deleted project owned by ownerW. -/
def delProjW : Project :=
  { project_id := 7, name := "DP", owner_id := 0, roles := none,
    created_at := 0, deleted_at := some 1 }

/-- Example fixture: a soft-deleted swim lane of projW5. -/
def delLaneW : ProjectSwimLane :=
  { swim_lane_id := 3, project_id := 2, name := "L", order := 0,
    created_at := 0, deleted_at := some 1 }

/-- Example fixture: a soft-deleted task of projW5. -/
def delTaskW : Task :=
  { task_id := 4, project_id := 2, project_swim_lane_id := 3, title := "T",
    description := none, assigned_to := none, created_by := 0,
    created_at := 0, deleted_at := some 1 }

/-- Example fixture: a soft-deleted user role of projW5. -/
def delRoleW : ProjectUserRole :=
  { id := 5, project_id := 2, user_id := 0, role := "dev",
    created_at := 0, deleted_at := some 1 }

/-- Example fixture: a soft-deleted template owned by ownerW. -/
def delTplW : ProjectTemplate :=
  { template_id := 6, name := "DT", description := none, owner_id := 0,
    statuses := none, roles := none, users := none, tasks := none,
    created_at := 0, deleted_at := some 1 }

/-- Example fixture: a live user role of projW5 held by ownerW. -/
def roleW5 : ProjectUserRole :=
  { id := 9, project_id := 2, user_id := 0, role := "dev",
    created_at := 0, deleted_at := none }

/-- Example fixture: one live project plus one soft-deleted row of every
soft-deletable entity, all owned by ownerW. -/
def dbDel5 : DB :=
  { DB.empty with
    users := [ownerW],
    projects := [projW5, delProjW],
    swim_lanes := [delLaneW],
    tasks := [delTaskW],
    user_roles := [delRoleW, roleW5],
    templates := [delTplW],
    next_id := 10 }

theorem mem_insertByKey {α : Type} (k : α → Int) (x a : α) (l : List α) :
    a ∈ insertByKey k x l ↔ a = x ∨ a ∈ l := by
  induction l with
  | nil => simp [insertByKey]
  | cons y ys ih =>
    by_cases h : k x ≤ k y
    · simp [insertByKey, h]
    · simp [insertByKey, h, ih]
      tauto

theorem mem_sortByKey {α : Type} (k : α → Int) (a : α) (l : List α) :
    a ∈ sortByKey k l ↔ a ∈ l := by
  induction l with
  | nil => simp [sortByKey]
  | cons x xs ih => simp [sortByKey, mem_insertByKey, ih]

theorem sortByKey_eq_nil_iff {α : Type} (k : α → Int) (l : List α) :
    sortByKey k l = [] ↔ l = [] := by
  cases l with
  | nil => simp [sortByKey]
  | cons x xs =>
    simp only [sortByKey]
    constructor
    · intro h
      have : x ∈ insertByKey k x (sortByKey k xs) := by
        rw [mem_insertByKey]; exact Or.inl rfl
      rw [h] at this
      simp at this
    · intro h
      exact absurd h (by simp)

/-- The head of an insertion sort has a minimal key among the list. -/
theorem sortByKey_head_min {α : Type} (k : α → Int) (l : List α) (x : α)
    (r : List α) (h : sortByKey k l = x :: r) :
    ∀ y ∈ l, k x ≤ k y := by
  induction l generalizing x r with
  | nil => simp [sortByKey] at h
  | cons a t ih =>
    simp only [sortByKey] at h
    cases hs : sortByKey k t with
    | nil =>
      rw [hs] at h
      simp [insertByKey] at h
      obtain ⟨hx, _⟩ := h
      intro y hy
      rcases List.mem_cons.mp hy with hya | hyt
      · subst hya; rw [hx]
      · rw [(sortByKey_eq_nil_iff k t).mp hs] at hyt
        simp at hyt
    | cons b s =>
      rw [hs] at h
      by_cases hab : k a ≤ k b
      · simp [insertByKey, hab] at h
        obtain ⟨hx, _⟩ := h
        intro y hy
        rcases List.mem_cons.mp hy with hya | hyt
        · subst hya; rw [← hx]
        · rw [← hx]
          exact le_trans hab (ih b s hs y hyt)
      · simp [insertByKey, hab] at h
        obtain ⟨hx, _⟩ := h
        intro y hy
        rcases List.mem_cons.mp hy with hya | hyt
        · subst hya
          rw [← hx]
          exact le_of_not_le hab
        · rw [← hx]
          exact ih b s hs y hyt

theorem mem_mapWithIds {α β : Type} (f : Nat → α → β) (start : Nat)
    (l : List α) (b : β) :
    b ∈ mapWithIds f start l → ∃ i x, x ∈ l ∧ b = f i x := by
  induction l generalizing start with
  | nil => simp [mapWithIds]
  | cons x xs ih =>
    intro hb
    simp only [mapWithIds, List.mem_cons] at hb
    rcases hb with hb | hb
    · exact ⟨start, x, List.mem_cons_self x xs, hb⟩
    · obtain ⟨i, y, hy, hbe⟩ := ih (start + 1) hb
      exact ⟨i, y, List.mem_cons_of_mem x hy, hbe⟩

theorem mapWithIds_map_proj {α β γ : Type} (f : Nat → α → β) (g : β → γ)
    (h : α → γ) (hfg : ∀ i x, g (f i x) = h x) (start : Nat) (l : List α) :
    (mapWithIds f start l).map g = l.map h := by
  induction l generalizing start with
  | nil => simp [mapWithIds]
  | cons x xs ih => simp [mapWithIds, hfg, ih]


theorem wf_parts {db : DB} (hwf : db.wf = true) :
    (∀ u ∈ db.users, u.id < db.next_id) ∧
    (∀ p ∈ db.projects, p.project_id < db.next_id) ∧
    (∀ l ∈ db.swim_lanes, l.project_id < db.next_id) ∧
    (∀ t ∈ db.tasks, t.project_id < db.next_id) := by
  simp only [DB.wf, Bool.and_eq_true, List.all_eq_true, decide_eq_true_eq] at hwf
  obtain ⟨⟨⟨⟨⟨h1, h2⟩, h3⟩, h4⟩, h5⟩, h6⟩ := hwf
  exact ⟨h1, fun p hp => (h2 p hp).1, fun l hl => (h3 l hl).2,
    fun t ht => (h5 t ht).2⟩

/-- C6: for every successful project creation without a template source, the
new project is owned by the caller and has exactly three swim lanes,
Backlog with order 0, To Do with order 1, Done with order 2. -/
theorem create_project_three_default_lanes (db : DB) (pname clerk : String)
    (now : Nat) (user : User) (hwf : db.wf = true)
    (hu : findCaller db clerk = some user) :
    ∃ db2 p, create_project db pname clerk now = .ok (db2, p) ∧
      p.owner_id = user.id ∧ p.deleted_at = none ∧
      (db2.swim_lanes.filter (fun l => l.project_id == p.project_id)).map
        (fun l => (l.name, l.order)) =
        [("Backlog", (0 : Int)), ("To Do", 1), ("Done", 2)] := by
  have hold : db.swim_lanes.filter (fun l => l.project_id == db.next_id) = [] := by
    rw [List.filter_eq_nil_iff]
    intro l hl
    have h := (wf_parts hwf).2.2.1 l hl
    simp only [beq_iff_eq]
    omega
  refine ⟨{ db with
             projects := db.projects ++
               [{ project_id := db.next_id, name := pname, owner_id := user.id,
                  roles := none, created_at := now, deleted_at := none }],
             swim_lanes := db.swim_lanes ++
               defaultLanes db.next_id (db.next_id + 1) now,
             next_id := db.next_id + 4 },
          { project_id := db.next_id, name := pname, owner_id := user.id,
            roles := none, created_at := now, deleted_at := none },
          ?_, rfl, rfl, ?_⟩
  · simp [create_project, hu]
  · simp only [List.filter_append, hold, List.nil_append]
    simp [defaultLanes]

theorem create_project_three_default_lanes_witness :
    dbW.wf = true ∧ findCaller dbW "c" = some ownerW ∧
    (∃ db2 p, create_project dbW "Demo" "c" 5 = .ok (db2, p) ∧
      p.owner_id = ownerW.id ∧ p.deleted_at = none ∧
      (db2.swim_lanes.filter (fun l => l.project_id == p.project_id)).map
        (fun l => (l.name, l.order)) =
        [("Backlog", (0 : Int)), ("To Do", 1), ("Done", 2)]) :=
  ⟨by decide, by decide,
   create_project_three_default_lanes dbW "Demo" "c" 5 ownerW (by decide) (by decide)⟩

/-- C9: a successful project update leaves the project id, the owner, the
creation timestamp and the deletion timestamp unchanged (only name and
roles can change), and touches no other table. -/
theorem update_project_frame (db : DB) (pid : Nat) (d : ProjectUpdate)
    (clerk : String) (user : User) (p : Project)
    (hu : findCaller db clerk = some user)
    (hp : findOwnedProject db pid user.id = some p) :
    ∃ db2 p2, update_project db pid d clerk = .ok (db2, p2) ∧
      p2.project_id = p.project_id ∧ p2.owner_id = p.owner_id ∧
      p2.created_at = p.created_at ∧ p2.deleted_at = p.deleted_at ∧
      db2.users = db.users ∧ db2.swim_lanes = db.swim_lanes ∧
      db2.user_roles = db.user_roles ∧ db2.tasks = db.tasks ∧
      db2.templates = db.templates := by
  refine ⟨{ db with
             projects := replaceFirst
               (fun q => q.project_id == pid && q.owner_id == user.id &&
                 q.deleted_at.isNone)
               (applyProjectUpdate p d) db.projects },
          applyProjectUpdate p d,
          ?_, rfl, rfl, rfl, rfl, rfl, rfl, rfl, rfl, rfl⟩
  simp [update_project, hu, hp]

theorem update_project_frame_witness :
    findCaller dbW "c" = some ownerW ∧
    findOwnedProject dbW 1 ownerW.id = some projW ∧
    (∃ db2 p2, update_project dbW 1
        { name := some "N", roles := some (some ["dev"]) } "c" = .ok (db2, p2) ∧
      p2.project_id = projW.project_id ∧ p2.owner_id = projW.owner_id ∧
      p2.created_at = projW.created_at ∧ p2.deleted_at = projW.deleted_at ∧
      db2.users = dbW.users ∧ db2.swim_lanes = dbW.swim_lanes ∧
      db2.user_roles = dbW.user_roles ∧ db2.tasks = dbW.tasks ∧
      db2.templates = dbW.templates) :=
  ⟨by decide, by decide,
   update_project_frame dbW 1 { name := some "N", roles := some (some ["dev"]) }
     "c" ownerW projW (by decide) (by decide)⟩

/-- C4 (counterexample to the claim as stated): with a single, soft-deleted
user holding the email and a fresh clerk id, creation still fails with
BadRequest: the email-uniqueness query has no deleted_at filter. -/
theorem create_user_soft_deleted_email_cex :
    dbDelW.users = [delUserW] ∧ delUserW.deleted_at = some 2 ∧
    dbDelW.users.find? (fun u => u.clerk_id == "fresh") = none ∧
    create_or_update_user dbDelW
      { clerk_id := "fresh", email := "d@x", first_name := none, last_name := none } 3 =
      .error (.badRequest "User with this email already exists") := by
  decide

/-- C4 (amended): when the clerk id is not yet present, creation fails with
BadRequest exactly when ANY user row, soft-deleted included, already uses
the email; reusing the email of a soft-deleted user therefore also fails. -/
theorem create_user_email_check_includes_deleted (db : DB) (d : UserCreate)
    (now : Nat)
    (hnew : db.users.find? (fun u => u.clerk_id == d.clerk_id) = none) :
    (∃ msg, create_or_update_user db d now = .error (.badRequest msg)) ↔
      ∃ u ∈ db.users, u.email = d.email := by
  unfold create_or_update_user
  rw [hnew]
  cases hf : db.users.find? (fun u => u.email == d.email) with
  | none =>
    constructor
    · rintro ⟨msg, h⟩
      simp at h
    · rintro ⟨u, hu, he⟩
      have hn := List.find?_eq_none.mp hf u hu
      simp [he] at hn
  | some u =>
    constructor
    · intro _
      refine ⟨u, List.mem_of_find?_eq_some hf, ?_⟩
      have hp := List.find?_some hf
      simpa using hp
    · intro _
      exact ⟨_, rfl⟩

theorem create_user_email_check_includes_deleted_witness :
    dbDelW.users.find? (fun u => u.clerk_id == "fresh") = none ∧
    ((∃ msg, create_or_update_user dbDelW
        { clerk_id := "fresh", email := "d@x", first_name := none,
          last_name := none } 3 = .error (.badRequest msg)) ↔
      ∃ u ∈ dbDelW.users, u.email = "d@x") :=
  ⟨by decide,
   create_user_email_check_includes_deleted dbDelW
     { clerk_id := "fresh", email := "d@x", first_name := none,
       last_name := none } 3 (by decide)⟩

/-- C5 (counterexample to the claim as stated): get_user_by_clerk_id
returns a soft-deleted user instead of NotFound. -/
theorem get_user_by_clerk_id_soft_deleted_cex :
    delUserW.deleted_at = some 2 ∧
    get_user_by_clerk_id dbDelW "cd" = .ok delUserW := by
  decide

/-- C5 (amended): every read/lookup path over soft-deletable projects, swim
lanes, tasks, user roles and templates filters on the deletion timestamp
being unset: get and list return only non-deleted rows, and a soft-deleted
row can no longer be mutated (update and delete answer NotFound).  The one
exception is the user entity: lookups by clerk_id, get_by_external_id and
the caller resolution, have no deleted_at filter, so a soft-deleted user
is returned as-is instead of NotFound. -/
theorem soft_delete_read_paths :
    (∀ (db : DB) (pid : Nat) (clerk : String) (p : Project),
        get_project db pid clerk = .ok p → p.deleted_at = none) ∧
    (∀ (db : DB) (clerk : String) (ps : List Project),
        get_user_projects db clerk = .ok ps → ∀ p ∈ ps, p.deleted_at = none) ∧
    (∀ (db : DB) (pid : Nat) (clerk : String) (ts : List Task),
        get_project_tasks db pid clerk = .ok ts →
        ∀ t ∈ ts, t.deleted_at = none) ∧
    (∀ (db : DB) (pid : Nat) (clerk : String)
        (rs : List (ProjectUserRole × User)),
        get_project_user_roles db pid clerk = .ok rs →
        ∀ ru ∈ rs, ru.1.deleted_at = none) ∧
    (∀ (db : DB) (clerk : String) (tps : List ProjectTemplate),
        get_templates db clerk = .ok tps →
        ∀ tpl ∈ tps, tpl.deleted_at = none) ∧
    (∀ (db : DB) (pid : Nat) (d : ProjectUpdate) (clerk : String) (user : User),
        findCaller db clerk = some user →
        (∀ p ∈ db.projects, p.project_id = pid → p.deleted_at ≠ none) →
        update_project db pid d clerk = .error (.notFound projectNotFoundMsg)) ∧
    (∀ (db : DB) (pid : Nat) (clerk : String) (now : Nat) (user : User),
        findCaller db clerk = some user →
        (∀ p ∈ db.projects, p.project_id = pid → p.deleted_at ≠ none) →
        delete_project db pid clerk now =
          .error (.notFound projectNotFoundMsg)) ∧
    (∀ (db : DB) (slid : Nat) (d : SwimLaneUpdate) (clerk : String)
        (user : User),
        findCaller db clerk = some user →
        (∀ l ∈ db.swim_lanes, l.swim_lane_id = slid → l.deleted_at ≠ none) →
        update_swim_lane db slid d clerk =
          .error (.notFound "Swim lane not found.")) ∧
    (∀ (db : DB) (slid : Nat) (clerk : String) (now : Nat) (user : User),
        findCaller db clerk = some user →
        (∀ l ∈ db.swim_lanes, l.swim_lane_id = slid → l.deleted_at ≠ none) →
        delete_swim_lane db slid clerk now =
          .error (.notFound "Swim lane not found.")) ∧
    (∀ (db : DB) (tid : Nat) (d : TaskUpdate) (clerk : String) (user : User),
        findCaller db clerk = some user →
        (∀ t ∈ db.tasks, t.task_id = tid → t.deleted_at ≠ none) →
        update_task db tid d clerk = .error (.notFound "Task not found.")) ∧
    (∀ (db : DB) (pid rid : Nat) (d : ProjectUserRoleUpdate) (clerk : String)
        (user : User) (project : Project),
        findCaller db clerk = some user →
        findOwnedProject db pid user.id = some project →
        (∀ r ∈ db.user_roles, r.id = rid → r.deleted_at ≠ none) →
        update_project_user_role db pid rid d clerk =
          .error (.notFound "User role not found")) ∧
    (∀ (db : DB) (pid rid : Nat) (clerk : String) (now : Nat)
        (user : User) (project : Project),
        findCaller db clerk = some user →
        findOwnedProject db pid user.id = some project →
        (∀ r ∈ db.user_roles, r.id = rid → r.deleted_at ≠ none) →
        delete_project_user_role db pid rid clerk now =
          .error (.notFound "User role not found")) ∧
    (∀ (db : DB) (tid : Nat) (clerk : String) (now : Nat) (user : User),
        findCaller db clerk = some user →
        (∀ t ∈ db.templates, t.template_id = tid → t.deleted_at ≠ none) →
        delete_template db tid clerk now =
          .error (.notFound "Template not found or you do not have access to it.")) ∧
    (∀ (db : DB) (cid : String) (u : User),
        findCaller db cid = some u → get_user_by_clerk_id db cid = .ok u) := by
  refine ⟨?_, ?_, ?_, ?_, ?_, ?_, ?_, ?_, ?_, ?_, ?_, ?_, ?_, ?_⟩
  · intro db pid clerk p h
    unfold get_project at h
    cases hu : findCaller db clerk with
    | none => rw [hu] at h; simp at h
    | some user =>
      rw [hu] at h
      dsimp only at h
      cases hp : findOwnedProject db pid user.id with
      | none => rw [hp] at h; simp at h
      | some q =>
        rw [hp] at h
        simp at h
        unfold findOwnedProject at hp
        have hq := List.find?_some hp
        simp [Bool.and_eq_true, Option.isNone_iff_eq_none] at hq
        rw [← h]
        exact hq.2
  · intro db clerk ps h
    unfold get_user_projects at h
    cases hu : findCaller db clerk with
    | none => rw [hu] at h; simp at h
    | some user =>
      rw [hu] at h
      simp at h
      intro p hp
      rw [← h] at hp
      rw [mem_sortByKey] at hp
      have hf := (List.mem_filter.mp hp).2
      simp [Bool.and_eq_true, Option.isNone_iff_eq_none] at hf
      exact hf.2
  · intro db pid clerk ts h
    unfold get_project_tasks at h
    cases hu : findCaller db clerk with
    | none => rw [hu] at h; simp at h
    | some user =>
      rw [hu] at h
      dsimp only at h
      cases hp : findOwnedProject db pid user.id with
      | none => rw [hp] at h; simp at h
      | some q =>
        rw [hp] at h
        simp at h
        intro t htm
        rw [← h] at htm
        rw [mem_sortByKey] at htm
        have hf := (List.mem_filter.mp htm).2
        simp [Bool.and_eq_true, Option.isNone_iff_eq_none] at hf
        exact hf.2
  · intro db pid clerk rs h
    unfold get_project_user_roles at h
    cases hu : findCaller db clerk with
    | none => rw [hu] at h; simp at h
    | some user =>
      rw [hu] at h
      dsimp only at h
      cases hp : findOwnedProject db pid user.id with
      | none => rw [hp] at h; simp at h
      | some q =>
        rw [hp] at h
        simp at h
        intro ru hru
        rw [← h] at hru
        rw [List.mem_filterMap] at hru
        obtain ⟨r, hr, heq⟩ := hru
        cases hfu : db.users.find? (fun u => u.id == r.user_id) with
        | none => rw [hfu] at heq; simp at heq
        | some u2 =>
          rw [hfu] at heq
          simp only [Option.map_some', Option.some.injEq] at heq
          have hf := (List.mem_filter.mp hr).2
          simp only [Bool.and_eq_true, Option.isNone_iff_eq_none] at hf
          rw [← heq]
          exact hf.2
  · intro db clerk tps h
    unfold get_templates at h
    cases hu : findCaller db clerk with
    | none => rw [hu] at h; simp at h
    | some user =>
      rw [hu] at h
      simp at h
      intro tpl htm
      rw [← h] at htm
      rw [mem_sortByKey] at htm
      have hf := (List.mem_filter.mp htm).2
      simp [Bool.and_eq_true, Option.isNone_iff_eq_none] at hf
      exact hf.2
  · intro db pid d clerk user hu hdel
    unfold update_project
    rw [hu]
    dsimp only
    have hnone : findOwnedProject db pid user.id = none := by
      unfold findOwnedProject
      rw [List.find?_eq_none]
      intro p hp hcon
      simp only [Bool.and_eq_true, beq_iff_eq,
        Option.isNone_iff_eq_none] at hcon
      exact hdel p hp hcon.1.1 hcon.2
    rw [hnone]
  · intro db pid clerk now user hu hdel
    unfold delete_project
    rw [hu]
    dsimp only
    have hnone : findOwnedProject db pid user.id = none := by
      unfold findOwnedProject
      rw [List.find?_eq_none]
      intro p hp hcon
      simp only [Bool.and_eq_true, beq_iff_eq,
        Option.isNone_iff_eq_none] at hcon
      exact hdel p hp hcon.1.1 hcon.2
    rw [hnone]
  · intro db slid d clerk user hu hdel
    unfold update_swim_lane
    rw [hu]
    dsimp only
    have hnone : db.swim_lanes.find? (fun l =>
        l.swim_lane_id == slid && l.deleted_at.isNone) = none := by
      rw [List.find?_eq_none]
      intro l hl hcon
      simp only [Bool.and_eq_true, beq_iff_eq,
        Option.isNone_iff_eq_none] at hcon
      exact hdel l hl hcon.1 hcon.2
    rw [hnone]
  · intro db slid clerk now user hu hdel
    unfold delete_swim_lane
    rw [hu]
    dsimp only
    have hnone : db.swim_lanes.find? (fun l =>
        l.swim_lane_id == slid && l.deleted_at.isNone) = none := by
      rw [List.find?_eq_none]
      intro l hl hcon
      simp only [Bool.and_eq_true, beq_iff_eq,
        Option.isNone_iff_eq_none] at hcon
      exact hdel l hl hcon.1 hcon.2
    rw [hnone]
  · intro db tid d clerk user hu hdel
    unfold update_task
    rw [hu]
    dsimp only
    have hnone : db.tasks.find? (fun t =>
        t.task_id == tid && t.deleted_at.isNone) = none := by
      rw [List.find?_eq_none]
      intro t htm hcon
      simp only [Bool.and_eq_true, beq_iff_eq,
        Option.isNone_iff_eq_none] at hcon
      exact hdel t htm hcon.1 hcon.2
    rw [hnone]
  · intro db pid rid d clerk user project hu hp hdel
    unfold update_project_user_role
    rw [hu]
    dsimp only
    rw [hp]
    dsimp only
    have hnone : db.user_roles.find? (fun r => r.id == rid &&
        r.project_id == pid && r.deleted_at.isNone) = none := by
      rw [List.find?_eq_none]
      intro r hr hcon
      simp only [Bool.and_eq_true, beq_iff_eq,
        Option.isNone_iff_eq_none] at hcon
      exact hdel r hr hcon.1.1 hcon.2
    rw [hnone]
  · intro db pid rid clerk now user project hu hp hdel
    unfold delete_project_user_role
    rw [hu]
    dsimp only
    rw [hp]
    dsimp only
    have hnone : db.user_roles.find? (fun r => r.id == rid &&
        r.project_id == pid && r.deleted_at.isNone) = none := by
      rw [List.find?_eq_none]
      intro r hr hcon
      simp only [Bool.and_eq_true, beq_iff_eq,
        Option.isNone_iff_eq_none] at hcon
      exact hdel r hr hcon.1.1 hcon.2
    rw [hnone]
  · intro db tid clerk now user hu hdel
    unfold delete_template
    rw [hu]
    dsimp only
    have hnone : db.templates.find? (fun t => t.template_id == tid &&
        t.owner_id == user.id && t.deleted_at.isNone) = none := by
      rw [List.find?_eq_none]
      intro t htm hcon
      simp only [Bool.and_eq_true, beq_iff_eq,
        Option.isNone_iff_eq_none] at hcon
      exact hdel t htm hcon.1.1 hcon.2
    rw [hnone]
  · intro db cid u h
    unfold get_user_by_clerk_id
    unfold findCaller at h
    rw [h]

theorem soft_delete_read_paths_witness :
    projW.deleted_at = none ∧
    (∀ p ∈ [projW], p.deleted_at = none) ∧
    (∀ t ∈ [taskW], t.deleted_at = none) ∧
    (∀ ru ∈ [(roleW5, ownerW)], ru.1.deleted_at = none) ∧
    (∀ tpl ∈ [tplW], tpl.deleted_at = none) ∧
    update_project dbDel5 7 { name := none, roles := none } "c" =
      .error (.notFound projectNotFoundMsg) ∧
    delete_project dbDel5 7 "c" 9 = .error (.notFound projectNotFoundMsg) ∧
    update_swim_lane dbDel5 3 { name := none, order := none } "c" =
      .error (.notFound "Swim lane not found.") ∧
    delete_swim_lane dbDel5 3 "c" 9 =
      .error (.notFound "Swim lane not found.") ∧
    update_task dbDel5 4
      { project_swim_lane_id := none, assigned_to := none,
        title := none, description := none } "c" =
      .error (.notFound "Task not found.") ∧
    update_project_user_role dbDel5 2 5 { role := none } "c" =
      .error (.notFound "User role not found") ∧
    delete_project_user_role dbDel5 2 5 "c" 9 =
      .error (.notFound "User role not found") ∧
    delete_template dbDel5 6 "c" 9 =
      .error (.notFound "Template not found or you do not have access to it.") ∧
    get_user_by_clerk_id dbW5 "cd" = .ok delUserW :=
  ⟨soft_delete_read_paths.1 dbW5 1 "c" projW (by decide),
   soft_delete_read_paths.2.1 dbW5 "c" [projW] (by decide),
   soft_delete_read_paths.2.2.1 dbW3 1 "c" [taskW] (by decide),
   soft_delete_read_paths.2.2.2.1 dbDel5 2 "c" [(roleW5, ownerW)] (by decide),
   soft_delete_read_paths.2.2.2.2.1 dbW2 "c" [tplW] (by decide),
   soft_delete_read_paths.2.2.2.2.2.1 dbDel5 7 { name := none, roles := none }
     "c" ownerW (by decide) (by decide),
   soft_delete_read_paths.2.2.2.2.2.2.1 dbDel5 7 "c" 9 ownerW
     (by decide) (by decide),
   soft_delete_read_paths.2.2.2.2.2.2.2.1 dbDel5 3
     { name := none, order := none } "c" ownerW (by decide) (by decide),
   soft_delete_read_paths.2.2.2.2.2.2.2.2.1 dbDel5 3 "c" 9 ownerW
     (by decide) (by decide),
   soft_delete_read_paths.2.2.2.2.2.2.2.2.2.1 dbDel5 4
     { project_swim_lane_id := none, assigned_to := none,
       title := none, description := none } "c" ownerW
     (by decide) (by decide),
   soft_delete_read_paths.2.2.2.2.2.2.2.2.2.2.1 dbDel5 2 5 { role := none }
     "c" ownerW projW5 (by decide) (by decide) (by decide),
   soft_delete_read_paths.2.2.2.2.2.2.2.2.2.2.2.1 dbDel5 2 5 "c" 9 ownerW
     projW5 (by decide) (by decide) (by decide),
   soft_delete_read_paths.2.2.2.2.2.2.2.2.2.2.2.2.1 dbDel5 6 "c" 9 ownerW
     (by decide) (by decide),
   soft_delete_read_paths.2.2.2.2.2.2.2.2.2.2.2.2.2 dbW5 "cd" delUserW
     (by decide)⟩

/-- C10: the target-user existence check of role creation has no deleted_at
filter, so any user row with the id passes it (the witness instantiates a
soft-deleted target and the role is created); a wholly absent user id
yields NotFound, not BadRequest. -/
theorem role_create_target_user_check (db : DB) (pid : Nat)
    (d : ProjectUserRoleCreate) (clerk : String) (now : Nat)
    (user : User) (project : Project)
    (hu : findCaller db clerk = some user)
    (hp : findOwnedProject db pid user.id = some project)
    (hmatch : d.project_id = pid)
    (hrole : (listTruthy project.roles &&
      !(project.roles.getD []).contains d.role) = false) :
    (∀ target, db.users.find? (fun u => u.id == d.user_id) = some target →
      db.user_roles.find? (fun r =>
        r.project_id == pid && r.user_id == d.user_id &&
        r.role == d.role && r.deleted_at.isNone) = none →
      ∃ db2 r, create_project_user_role db pid d clerk now = .ok (db2, r) ∧
        r.user_id = d.user_id ∧ r.deleted_at = none) ∧
    (db.users.find? (fun u => u.id == d.user_id) = none →
      create_project_user_role db pid d clerk now =
        .error (.notFound "User not found")) := by
  unfold create_project_user_role
  rw [hu]
  dsimp only
  rw [hp]
  dsimp only
  rw [if_neg (by simp [hmatch]),
    if_neg (show ¬_ = true by rw [hrole]; exact Bool.false_ne_true)]
  constructor
  · intro target htgt hdup
    rw [htgt]
    dsimp only
    rw [hdup]
    exact ⟨_, _, rfl, rfl, rfl⟩
  · intro habs
    rw [habs]

theorem role_create_target_user_check_witness :
    findCaller dbW5 "c" = some ownerW ∧
    findOwnedProject dbW5 1 ownerW.id = some projW ∧
    delUserW.deleted_at = some 2 ∧
    dbW5.users.find? (fun u => u.id == 1) = some delUserW ∧
    (∃ db2 r, create_project_user_role dbW5 1
        { project_id := 1, user_id := 1, role := "dev" } "c" 7 = .ok (db2, r) ∧
      r.user_id = 1 ∧ r.deleted_at = none) ∧
    create_project_user_role dbW5 1
        { project_id := 1, user_id := 2, role := "dev" } "c" 7 =
      .error (.notFound "User not found") :=
  ⟨by decide, by decide, by decide, by decide,
   (role_create_target_user_check dbW5 1
      { project_id := 1, user_id := 1, role := "dev" } "c" 7 ownerW projW
      (by decide) (by decide) (by decide) (by decide)).1 delUserW
      (by decide) (by decide),
   (role_create_target_user_check dbW5 1
      { project_id := 1, user_id := 2, role := "dev" } "c" 7 ownerW projW
      (by decide) (by decide) (by decide) (by decide)).2 (by decide)⟩

/-- C7 (counterexample to the claim as stated): with the role check passing
(roles unset) and no duplicate row present, creation still fails with
BadRequest when the body project_id differs from the path project_id. -/
theorem role_create_mismatch_cex :
    projW.roles = none ∧ dbW5.user_roles = [] ∧
    create_project_user_role dbW5 1
        { project_id := 99, user_id := 0, role := "dev" } "c" 7 =
      .error (.badRequest "Project ID mismatch") := by
  decide

/-- C7 (amended): once the ownership guard and the target-user check pass,
role creation fails with BadRequest exactly when the body project id
differs from the path project id, or the role string is not a member of
the project's non-empty roles list, or a non-deleted identical
(project, user, role) triple already exists; with an empty or unset roles
list any role string passes the membership check. -/
theorem role_create_badRequest_iff (db : DB) (pid : Nat)
    (d : ProjectUserRoleCreate) (clerk : String) (now : Nat)
    (user : User) (project : Project) (target : User)
    (hu : findCaller db clerk = some user)
    (hp : findOwnedProject db pid user.id = some project)
    (ht : db.users.find? (fun u => u.id == d.user_id) = some target) :
    (∃ msg, create_project_user_role db pid d clerk now =
        .error (.badRequest msg)) ↔
      (d.project_id ≠ pid ∨
       (listTruthy project.roles = true ∧ d.role ∉ project.roles.getD []) ∨
       ∃ r ∈ db.user_roles, r.project_id = pid ∧ r.user_id = d.user_id ∧
         r.role = d.role ∧ r.deleted_at = none) := by
  unfold create_project_user_role
  rw [hu]
  dsimp only
  rw [hp]
  dsimp only
  by_cases hmm : d.project_id ≠ pid
  · rw [if_pos hmm]
    constructor
    · intro _
      exact Or.inl hmm
    · intro _
      exact ⟨_, rfl⟩
  · rw [if_neg hmm]
    by_cases hrole : (listTruthy project.roles &&
        !(project.roles.getD []).contains d.role) = true
    · rw [if_pos hrole]
      simp only [Bool.and_eq_true, Bool.not_eq_true'] at hrole
      constructor
      · intro _
        refine Or.inr (Or.inl ⟨hrole.1, ?_⟩)
        intro hmem
        refine absurd (List.elem_iff.mpr hmem) ?_
        show ¬(project.roles.getD []).contains d.role = true
        rw [hrole.2]
        exact Bool.false_ne_true
      · intro _
        exact ⟨_, rfl⟩
    · rw [if_neg hrole]
      rw [ht]
      dsimp only
      cases hdup : db.user_roles.find? (fun r =>
          r.project_id == pid && r.user_id == d.user_id &&
          r.role == d.role && r.deleted_at.isNone) with
      | some r =>
        constructor
        · intro _
          refine Or.inr (Or.inr ⟨r, List.mem_of_find?_eq_some hdup, ?_⟩)
          have hpr := List.find?_some hdup
          simp only [Bool.and_eq_true, beq_iff_eq,
            Option.isNone_iff_eq_none] at hpr
          exact ⟨hpr.1.1.1, hpr.1.1.2, hpr.1.2, hpr.2⟩
        · intro _
          exact ⟨_, rfl⟩
      | none =>
        constructor
        · rintro ⟨msg, hmsg⟩
          simp at hmsg
        · rintro (hc | ⟨hlt, hnm⟩ | ⟨r, hr, h1, h2, h3, h4⟩)
          · exact absurd hc hmm
          · exfalso
            apply hrole
            have hcb : (project.roles.getD []).contains d.role = false := by
              cases hcb2 : (project.roles.getD []).contains d.role with
              | false => rfl
              | true => exact absurd (List.elem_iff.mp hcb2) hnm
            rw [hlt, hcb]
            rfl
          · exfalso
            have hn := List.find?_eq_none.mp hdup r hr
            simp only [Bool.and_eq_true, beq_iff_eq,
              Option.isNone_iff_eq_none] at hn
            exact hn ⟨⟨⟨h1, h2⟩, h3⟩, h4⟩

theorem role_create_badRequest_iff_witness :
    findCaller dbW5 "c" = some ownerW ∧
    findOwnedProject dbW5 1 ownerW.id = some projW ∧
    dbW5.users.find? (fun u => u.id == 0) = some ownerW ∧
    ((∃ msg, create_project_user_role dbW5 1
        { project_id := 99, user_id := 0, role := "dev" } "c" 7 =
          .error (.badRequest msg)) ↔
      (((99 : Nat) ≠ 1) ∨
       (listTruthy projW.roles = true ∧ "dev" ∉ projW.roles.getD []) ∨
       ∃ r ∈ dbW5.user_roles, r.project_id = 1 ∧ r.user_id = 0 ∧
         r.role = "dev" ∧ r.deleted_at = none)) :=
  ⟨by decide, by decide, by decide,
   role_create_badRequest_iff dbW5 1
     { project_id := 99, user_id := 0, role := "dev" } "c" 7 ownerW projW
     ownerW (by decide) (by decide) (by decide)⟩

/-- C3: a live-project expansion with keep_assignees requested but users
not included never sets an assignee on any task it creates. -/
theorem live_clone_no_assignees_without_users (db : DB)
    (d : ProjectCreateFromTemplate) (clerk : String) (now : Nat)
    (user : User) (src : Project)
    (hu : findCaller db clerk = some user)
    (hp : findOwnedProject db d.source_project_id user.id = some src)
    (_hk : d.keep_assignees = true) (hiu : d.include_users = false) :
    ∃ db2 p, create_project_from_template db d clerk now = .ok (db2, p) ∧
      ∀ t ∈ db2.tasks, t ∉ db.tasks → t.assigned_to = none := by
  unfold create_project_from_template
  rw [hu]
  dsimp only
  rw [hp]
  dsimp only
  refine ⟨_, _, rfl, ?_⟩
  intro t ht hnot
  simp only [List.mem_append] at ht
  rcases ht with hold | hnew
  · exact absurd hold hnot
  · split at hnew
    · obtain ⟨i, st, hst, hteq⟩ := mem_mapWithIds _ _ _ _ hnew
      subst hteq
      simp [hiu]
    · simp at hnew

theorem live_clone_no_assignees_without_users_witness :
    findCaller dbW3 "c" = some ownerW ∧
    findOwnedProject dbW3 1 ownerW.id = some projW ∧
    taskW.assigned_to = some 0 ∧
    (∃ db2 p, create_project_from_template dbW3
        { source_project_id := 1, name := "N", include_statuses := true,
          include_roles := false, include_users := false,
          include_tasks := true, keep_assignees := true } "c" 9 = .ok (db2, p) ∧
      ∀ t ∈ db2.tasks, t ∉ dbW3.tasks → t.assigned_to = none) :=
  ⟨by decide, by decide, by decide,
   live_clone_no_assignees_without_users dbW3
     { source_project_id := 1, name := "N", include_statuses := true,
       include_roles := false, include_users := false,
       include_tasks := true, keep_assignees := true } "c" 9 ownerW projW
     (by decide) (by decide) rfl rfl⟩

theorem taskLaneStep_ok_fields (db : DB) (task t1 : Task) (sl? : Option Nat)
    (h : taskLaneStep db task sl? = .ok t1) :
    t1.assigned_to = task.assigned_to ∧ t1.title = task.title ∧
    t1.description = task.description ∧ t1.task_id = task.task_id ∧
    t1.project_id = task.project_id ∧ t1.created_by = task.created_by ∧
    t1.created_at = task.created_at ∧
    (sl? = none → t1.project_swim_lane_id = task.project_swim_lane_id) := by
  cases sl? with
  | none =>
    simp only [taskLaneStep, Except.ok.injEq] at h
    subst h
    simp
  | some sl =>
    simp only [taskLaneStep] at h
    split at h
    · simp at h
    · simp only [Except.ok.injEq] at h
      subst h
      simp

theorem taskAssigneeStep_ok_fields (db : DB) (t1 t2 : Task)
    (a? : Option (Option Nat)) (h : taskAssigneeStep db t1 a? = .ok t2) :
    t2.title = t1.title ∧ t2.description = t1.description ∧
    t2.project_swim_lane_id = t1.project_swim_lane_id ∧
    t2.task_id = t1.task_id ∧ t2.project_id = t1.project_id ∧
    t2.created_by = t1.created_by ∧ t2.created_at = t1.created_at ∧
    (a? = none → t2.assigned_to = t1.assigned_to) ∧
    (a? = some none → t2.assigned_to = none) ∧
    (∀ uid, a? = some (some uid) → t2.assigned_to = some uid ∧
      ∃ u ∈ db.users, u.id = uid ∧ u.deleted_at = none) := by
  cases a? with
  | none =>
    simp only [taskAssigneeStep, Except.ok.injEq] at h
    subst h
    simp
  | some v =>
    cases v with
    | none =>
      simp only [taskAssigneeStep, Except.ok.injEq] at h
      subst h
      simp
    | some uid =>
      simp only [taskAssigneeStep] at h
      cases hf : db.users.find? (fun u => u.id == uid && u.deleted_at.isNone) with
      | none => rw [hf] at h; simp at h
      | some u =>
        rw [hf] at h
        simp only [Except.ok.injEq] at h
        subst h
        have hpu := List.find?_some hf
        simp only [Bool.and_eq_true, beq_iff_eq,
          Option.isNone_iff_eq_none] at hpu
        refine ⟨rfl, rfl, rfl, rfl, rfl, rfl, rfl, by simp, by simp, ?_⟩
        intro uid2 heq
        have huid : uid2 = uid := by
          simpa using heq.symm
        subst huid
        exact ⟨rfl, u, List.mem_of_find?_eq_some hf, hpu.1, hpu.2⟩

theorem taskTitleStep_ok_fields (t2 t3 : Task) (title? : Option String)
    (h : taskTitleStep t2 title? = .ok t3) :
    t3.assigned_to = t2.assigned_to ∧ t3.description = t2.description ∧
    t3.project_swim_lane_id = t2.project_swim_lane_id ∧
    t3.task_id = t2.task_id ∧ t3.project_id = t2.project_id ∧
    t3.created_by = t2.created_by ∧ t3.created_at = t2.created_at ∧
    (title? = none → t3.title = t2.title) := by
  cases title? with
  | none =>
    simp only [taskTitleStep, Except.ok.injEq] at h
    subst h
    simp
  | some s =>
    simp only [taskTitleStep] at h
    split at h
    · simp at h
    · simp only [Except.ok.injEq] at h
      subst h
      simp

theorem taskDescriptionStep_fields (t3 : Task) (description? : Option String) :
    (taskDescriptionStep t3 description?).assigned_to = t3.assigned_to ∧
    (taskDescriptionStep t3 description?).title = t3.title ∧
    (taskDescriptionStep t3 description?).project_swim_lane_id =
      t3.project_swim_lane_id ∧
    (taskDescriptionStep t3 description?).task_id = t3.task_id ∧
    (taskDescriptionStep t3 description?).project_id = t3.project_id ∧
    (taskDescriptionStep t3 description?).created_by = t3.created_by ∧
    (taskDescriptionStep t3 description?).created_at = t3.created_at ∧
    (description? = none →
      (taskDescriptionStep t3 description?).description = t3.description) := by
  cases description? <;> simp [taskDescriptionStep]

/-- C8: on an owned, non-deleted task, an update with a provided assignee id
sets it after validating it resolves to a non-deleted user (BadRequest when
it does not), a provided-but-empty assignee clears it, and every field not
supplied in the request is left untouched. -/
theorem update_task_assignee_rules (db : DB) (tid : Nat) (d : TaskUpdate)
    (clerk : String) (user : User) (task : Task) (project : Project)
    (hu : findCaller db clerk = some user)
    (ht : db.tasks.find? (fun t => t.task_id == tid && t.deleted_at.isNone) =
      some task)
    (hp : findOwnedProject db task.project_id user.id = some project) :
    (∀ db2 t2, update_task db tid d clerk = .ok (db2, t2) →
      (d.assigned_to = some none → t2.assigned_to = none) ∧
      (∀ uid, d.assigned_to = some (some uid) → t2.assigned_to = some uid ∧
        ∃ u ∈ db.users, u.id = uid ∧ u.deleted_at = none) ∧
      (d.assigned_to = none → t2.assigned_to = task.assigned_to) ∧
      (d.project_swim_lane_id = none →
        t2.project_swim_lane_id = task.project_swim_lane_id) ∧
      (d.title = none → t2.title = task.title) ∧
      (d.description = none → t2.description = task.description) ∧
      t2.task_id = task.task_id ∧ t2.project_id = task.project_id ∧
      t2.created_by = task.created_by ∧ t2.created_at = task.created_at) ∧
    (∀ uid, d.project_swim_lane_id = none → d.assigned_to = some (some uid) →
      db.users.find? (fun u => u.id == uid && u.deleted_at.isNone) = none →
      update_task db tid d clerk =
        .error (.badRequest "Assigned user not found.")) := by
  constructor
  · intro db2 t2 hok
    unfold update_task at hok
    rw [hu] at hok
    dsimp only at hok
    rw [ht] at hok
    dsimp only at hok
    rw [hp] at hok
    dsimp only at hok
    cases hls : taskLaneStep db task d.project_swim_lane_id with
    | error e => rw [hls] at hok; simp at hok
    | ok t1 =>
      rw [hls] at hok
      dsimp only at hok
      cases has : taskAssigneeStep db t1 d.assigned_to with
      | error e => rw [has] at hok; simp at hok
      | ok ta =>
        rw [has] at hok
        dsimp only at hok
        cases hts : taskTitleStep ta d.title with
        | error e => rw [hts] at hok; simp at hok
        | ok tb =>
          rw [hts] at hok
          simp only [Except.ok.injEq, Prod.mk.injEq] at hok
          obtain ⟨-, ht2⟩ := hok
          obtain ⟨Lass, Lti, Ldesc, Lid, Lpid, Lcb, Lca, Llane⟩ :=
            taskLaneStep_ok_fields db task t1 d.project_swim_lane_id hls
          obtain ⟨At, Ad, Al, Aid, Apid, Acb, Aca, Anone, Aclear, Aset⟩ :=
            taskAssigneeStep_ok_fields db t1 ta d.assigned_to has
          obtain ⟨Tass, Tdesc, Tlane, Tid, Tpid, Tcb, Tca, Tti⟩ :=
            taskTitleStep_ok_fields ta tb d.title hts
          obtain ⟨Dass, Dti, Dlane, Did, Dpid, Dcb, Dca, Ddesc⟩ :=
            taskDescriptionStep_fields tb d.description
          subst ht2
          refine ⟨?_, ?_, ?_, ?_, ?_, ?_, ?_, ?_, ?_, ?_⟩
          · intro hd
            rw [Dass, Tass]
            exact Aclear hd
          · intro uid hd
            refine ⟨?_, (Aset uid hd).2⟩
            rw [Dass, Tass]
            exact (Aset uid hd).1
          · intro hd
            rw [Dass, Tass, Anone hd, Lass]
          · intro hd
            rw [Dlane, Tlane, Al, Llane hd]
          · intro hd
            rw [Dti, Tti hd, At, Lti]
          · intro hd
            rw [Ddesc hd, Tdesc, Ad, Ldesc]
          · rw [Did, Tid, Aid, Lid]
          · rw [Dpid, Tpid, Apid, Lpid]
          · rw [Dcb, Tcb, Acb, Lcb]
          · rw [Dca, Tca, Aca, Lca]
  · intro uid hlane hd hf
    unfold update_task
    rw [hu]
    dsimp only
    rw [ht]
    dsimp only
    rw [hp]
    dsimp only
    rw [hlane, hd]
    have hstep : taskAssigneeStep db task (some (some uid)) =
        .error (.badRequest "Assigned user not found.") := by
      simp only [taskAssigneeStep]
      rw [hf]
    dsimp only [taskLaneStep]
    rw [hstep]

theorem update_task_assignee_rules_witness :
    findCaller dbW3 "c" = some ownerW ∧
    dbW3.tasks.find? (fun t => t.task_id == 3 && t.deleted_at.isNone) =
      some taskW ∧
    findOwnedProject dbW3 taskW.project_id ownerW.id = some projW ∧
    ((∀ db2 t2, update_task dbW3 3
        { project_swim_lane_id := none, assigned_to := some none,
          title := none, description := none } "c" = .ok (db2, t2) →
      (some (none : Option Nat) = some none → t2.assigned_to = none) ∧
      (∀ uid, some (none : Option Nat) = some (some uid) →
        t2.assigned_to = some uid ∧
        ∃ u ∈ dbW3.users, u.id = uid ∧ u.deleted_at = none) ∧
      (some (none : Option Nat) = none → t2.assigned_to = taskW.assigned_to) ∧
      ((none : Option Nat) = none →
        t2.project_swim_lane_id = taskW.project_swim_lane_id) ∧
      ((none : Option String) = none → t2.title = taskW.title) ∧
      ((none : Option String) = none → t2.description = taskW.description) ∧
      t2.task_id = taskW.task_id ∧ t2.project_id = taskW.project_id ∧
      t2.created_by = taskW.created_by ∧ t2.created_at = taskW.created_at) ∧
    (∀ uid, (none : Option Nat) = none →
      some (none : Option Nat) = some (some uid) →
      dbW3.users.find? (fun u => u.id == uid && u.deleted_at.isNone) = none →
      update_task dbW3 3
        { project_swim_lane_id := none, assigned_to := some none,
          title := none, description := none } "c" =
        .error (.badRequest "Assigned user not found."))) :=
  ⟨by decide, by decide, by decide,
   update_task_assignee_rules dbW3 3
     { project_swim_lane_id := none, assigned_to := some none,
       title := none, description := none } "c" ownerW taskW projW
     (by decide) (by decide) (by decide)⟩


theorem listTruthy_getD {α : Type} (o : Option (List α))
    (h : listTruthy o = true) : o.getD [] ≠ [] := by
  cases o with
  | none => simp [listTruthy] at h
  | some l =>
    simp only [listTruthy, Bool.not_eq_true', Option.getD_some] at h ⊢
    intro hnil
    rw [hnil] at h
    simp at h

theorem mapWithIds_sortByKey_spec {α : Type} (k : α → Int) (src : List α)
    (mk : Nat → α → ProjectSwimLane) (start pid fl : Nat)
    (hproj : ∀ i x, (mk i x).project_id = pid)
    (horder : ∀ i x, (mk i x).order = k x)
    (h : (mapWithIds mk start (sortByKey k src)).head?.map
      (fun l => l.swim_lane_id) = some fl) :
    ∃ lane ∈ mapWithIds mk start (sortByKey k src),
      lane.swim_lane_id = fl ∧ lane.project_id = pid ∧
      ∀ l2 ∈ mapWithIds mk start (sortByKey k src), lane.order ≤ l2.order := by
  cases hs : sortByKey k src with
  | nil => rw [hs] at h; simp [mapWithIds] at h
  | cons x0 xs =>
    rw [hs] at h
    simp only [mapWithIds, List.head?_cons, Option.map_some'] at h
    refine ⟨mk start x0, ?_, by simpa using h, hproj _ _, ?_⟩
    · simp [mapWithIds]
    · intro l2 hl2
      obtain ⟨i, y, hy, rfl⟩ := mem_mapWithIds _ _ _ _ hl2
      rw [horder, horder]
      have hysrc : y ∈ src := by
        rw [← mem_sortByKey k y src, hs]
        exact hy
      exact sortByKey_head_min k src x0 xs hs y hysrc

theorem cloneLanesFromSource_spec (db : DB) (src_pid pid start now fl : Nat)
    (h : (cloneLanesFromSource db src_pid pid start now).2 = some fl) :
    ∃ lane ∈ (cloneLanesFromSource db src_pid pid start now).1,
      lane.swim_lane_id = fl ∧ lane.project_id = pid ∧
      ∀ l2 ∈ (cloneLanesFromSource db src_pid pid start now).1,
        lane.order ≤ l2.order := by
  simp only [cloneLanesFromSource] at h ⊢
  exact mapWithIds_sortByKey_spec _ _ _ _ _ _ (fun i x => rfl) (fun i x => rfl) h

theorem lanesFromStatuses_spec (statuses : List TemplateStatus)
    (pid start now fl : Nat)
    (h : (lanesFromStatuses statuses pid start now).2 = some fl) :
    ∃ lane ∈ (lanesFromStatuses statuses pid start now).1,
      lane.swim_lane_id = fl ∧ lane.project_id = pid ∧
      ∀ l2 ∈ (lanesFromStatuses statuses pid start now).1,
        lane.order ≤ l2.order := by
  simp only [lanesFromStatuses] at h ⊢
  exact mapWithIds_sortByKey_spec _ _ _ _ _ _ (fun i x => rfl) (fun i x => rfl) h

theorem firstLaneQuery_spec (lanes : List ProjectSwimLane) (pid fl : Nat)
    (h : firstLaneQuery lanes pid = some fl) :
    ∃ lane ∈ lanes, lane.swim_lane_id = fl ∧ lane.project_id = pid ∧
      ∀ l2 ∈ lanes, l2.project_id = pid → lane.order ≤ l2.order := by
  unfold firstLaneQuery at h
  cases hs : sortByKey (fun l => l.order)
      (lanes.filter (fun l => l.project_id == pid)) with
  | nil => rw [hs] at h; simp at h
  | cons q0 qs =>
    rw [hs] at h
    simp only [List.head?_cons, Option.map_some', Option.some.injEq] at h
    have hq0 : q0 ∈ lanes.filter (fun l => l.project_id == pid) := by
      rw [← mem_sortByKey (fun l => l.order) q0, hs]
      exact List.mem_cons_self _ _
    obtain ⟨hmem, hpred⟩ := List.mem_filter.mp hq0
    refine ⟨q0, hmem, h, by simpa using hpred, ?_⟩
    intro l2 hl2 hpid2
    exact sortByKey_head_min _ _ _ _ hs l2
      (List.mem_filter.mpr ⟨hl2, by simp [hpid2]⟩)

theorem defaultLanesWithFirst_spec (db : DB) (pid start now fl : Nat)
    (h : (defaultLanesWithFirst db pid start now).2 = some fl) :
    ∃ lane ∈ db.swim_lanes ++ (defaultLanesWithFirst db pid start now).1,
      lane.swim_lane_id = fl ∧ lane.project_id = pid ∧
      ∀ l2 ∈ db.swim_lanes ++ (defaultLanesWithFirst db pid start now).1,
        l2.project_id = pid → lane.order ≤ l2.order := by
  simp only [defaultLanesWithFirst] at h ⊢
  exact firstLaneQuery_spec _ _ _ h

theorem defaultLanesWithFirst_some (db : DB) (pid start now : Nat) :
    ∃ fl, (defaultLanesWithFirst db pid start now).2 = some fl := by
  simp only [defaultLanesWithFirst, firstLaneQuery]
  have hne : (db.swim_lanes ++ defaultLanes pid start now).filter
      (fun l => l.project_id == pid) ≠ [] := by
    rw [List.filter_append]
    simp [defaultLanes]
  cases hs : sortByKey (fun l => l.order)
      ((db.swim_lanes ++ defaultLanes pid start now).filter
        (fun l => l.project_id == pid)) with
  | nil => exact absurd ((sortByKey_eq_nil_iff _ _).mp hs) hne
  | cons q0 qs => exact ⟨q0.swim_lane_id, rfl⟩

theorem lanesFromStatuses_some (statuses : List TemplateStatus)
    (pid start now : Nat) (hne : statuses ≠ []) :
    ∃ fl, (lanesFromStatuses statuses pid start now).2 = some fl := by
  simp only [lanesFromStatuses]
  cases hs : sortByKey (fun s => s.order) statuses with
  | nil => exact absurd ((sortByKey_eq_nil_iff _ _).mp hs) hne
  | cons s0 rest => exact ⟨start, rfl⟩

theorem expandTemplateUsers_valid (db : DB) (pid now : Nat)
    (us : List TemplateUser) (start : Nat) :
    (expandTemplateUsers db pid now start us).2 = validAssigneeIds db us := by
  induction us generalizing start with
  | nil => rfl
  | cons u rest ih =>
    simp only [validAssigneeIds, List.filterMap_cons]
    cases hpu : parseUUID u.user_id with
    | none =>
      simp only [expandTemplateUsers, hpu]
      exact ih start
    | some uid =>
      cases hfu : db.users.find? (fun x => x.id == uid && x.deleted_at.isNone) with
      | none =>
        simp only [expandTemplateUsers, hpu, hfu]
        exact ih start
      | some w =>
        simp only [expandTemplateUsers, hpu, hfu]
        rw [ih (start + 1)]
        rfl

theorem expandTemplateUsers_roles_map (db : DB) (pid now : Nat)
    (us : List TemplateUser) (start : Nat) :
    ((expandTemplateUsers db pid now start us).1).map (fun r => r.user_id) =
      (expandTemplateUsers db pid now start us).2 := by
  induction us generalizing start with
  | nil => rfl
  | cons u rest ih =>
    cases hpu : parseUUID u.user_id with
    | none =>
      simp only [expandTemplateUsers, hpu]
      exact ih start
    | some uid =>
      cases hfu : db.users.find? (fun x => x.id == uid && x.deleted_at.isNone) with
      | none =>
        simp only [expandTemplateUsers, hpu, hfu]
        exact ih start
      | some w =>
        simp only [expandTemplateUsers, hpu, hfu, List.map_cons]
        rw [ih (start + 1)]

theorem valid_ids_branch_eq (db : DB) (pid now start : Nat)
    (users? : Option (List TemplateUser)) :
    (if listTruthy users? then
        expandTemplateUsers db pid now start (users?.getD [])
      else (([] : List ProjectUserRole), ([] : List Nat))).2 =
      validAssigneeIds db (users?.getD []) := by
  cases users? with
  | none => simp [listTruthy, validAssigneeIds]
  | some us =>
    by_cases he : us.isEmpty
    · rw [List.isEmpty_iff.mp he]
      simp [listTruthy, validAssigneeIds]
    · simp [listTruthy, he, expandTemplateUsers_valid]

theorem valid_roles_branch_eq (db : DB) (pid now start : Nat)
    (users? : Option (List TemplateUser)) :
    ((if listTruthy users? then
        expandTemplateUsers db pid now start (users?.getD [])
      else (([] : List ProjectUserRole), ([] : List Nat))).1).map
        (fun r => r.user_id) =
      validAssigneeIds db (users?.getD []) := by
  cases users? with
  | none => simp [listTruthy, validAssigneeIds]
  | some us =>
    by_cases he : us.isEmpty
    · rw [List.isEmpty_iff.mp he]
      simp [listTruthy, validAssigneeIds]
    · simp [listTruthy, he, expandTemplateUsers_roles_map,
        expandTemplateUsers_valid]

theorem validAssigneeIds_mem (db : DB) (us : List TemplateUser) (uid : Nat) :
    uid ∈ validAssigneeIds db us ↔
      ∃ tu ∈ us, parseUUID tu.user_id = some uid ∧
        ∃ w ∈ db.users, w.id = uid ∧ w.deleted_at = none := by
  simp only [validAssigneeIds, List.mem_filterMap]
  constructor
  · rintro ⟨tu, htu, hf⟩
    refine ⟨tu, htu, ?_⟩
    cases hpu : parseUUID tu.user_id with
    | none => rw [hpu] at hf; simp at hf
    | some uid2 =>
      rw [hpu] at hf
      dsimp only at hf
      cases hfu : db.users.find? (fun x => x.id == uid2 && x.deleted_at.isNone) with
      | none => rw [hfu] at hf; simp at hf
      | some w =>
        rw [hfu] at hf
        simp only [Option.some.injEq] at hf
        subst hf
        have hw := List.find?_some hfu
        simp only [Bool.and_eq_true, beq_iff_eq, Option.isNone_iff_eq_none] at hw
        exact ⟨rfl, w, List.mem_of_find?_eq_some hfu, hw.1, hw.2⟩
  · rintro ⟨tu, htu, hpu, w, hw, hwid, hwdel⟩
    refine ⟨tu, htu, ?_⟩
    rw [hpu]
    dsimp only
    cases hfu : db.users.find? (fun x => x.id == uid && x.deleted_at.isNone) with
    | none =>
      have hn := List.find?_eq_none.mp hfu w hw
      simp [hwid, hwdel] at hn
    | some v => rfl

theorem parseUUID_of_isEmpty (s : String) (h : s.isEmpty = true) :
    parseUUID s = none := by
  have hs : s = "" := (String.isEmpty_iff s).mp h
  rw [hs]
  rfl

theorem savedTemplateAssignee_eq_some_iff (keep : Bool) (valid : List Nat)
    (a : Option String) (uid : Nat) :
    savedTemplateAssignee keep valid a = some uid ↔
      (keep = true ∧ ∃ s, a = some s ∧ parseUUID s = some uid ∧
        uid ∈ valid) := by
  cases keep with
  | false => simp [savedTemplateAssignee]
  | true =>
    cases a with
    | none => simp [savedTemplateAssignee, strTruthy]
    | some ss =>
      by_cases hse : ss.isEmpty = true
      · simp [savedTemplateAssignee, strTruthy, hse, parseUUID_of_isEmpty ss hse]
      · cases hpu : parseUUID ss with
        | none => simp [savedTemplateAssignee, strTruthy, hse, hpu]
        | some aid =>
          by_cases hc : valid.contains aid = true
          · have hmem := List.elem_iff.mp hc
            simp only [savedTemplateAssignee, strTruthy, hse, Bool.not_false,
              Bool.and_true, if_true, hpu, hc, Option.some.injEq, true_and]
            constructor
            · rintro rfl
              exact ⟨ss, rfl, hpu, hmem⟩
            · rintro ⟨s2, hs2, hpu2, -⟩
              subst hs2
              simpa using hpu.symm.trans hpu2
          · simp only [savedTemplateAssignee, strTruthy, hse, Bool.not_false,
              Bool.and_true, if_true, hpu, hc, if_false, true_and]
            constructor
            · intro hcon
              cases hcon
            · rintro ⟨s2, hs2, hpu2, hmem⟩
              obtain rfl : ss = s2 := by simpa using hs2
              rw [hpu] at hpu2
              injection hpu2 with h2
              subst h2
              exact False.elim (hc (List.elem_iff.mpr hmem))

/-- C2: in a saved-template expansion, a copied task's assignee is set if
and only if keep_assignees is requested, the stored assigned_to string
parses to a valid id, and that id is among the user ids successfully added
as ProjectUserRole rows during this expansion; malformed or unresolvable
references are silently skipped and the operation still succeeds. -/
theorem saved_template_assignee_rules (db : DB)
    (d : ProjectCreateFromSavedTemplate) (clerk : String) (now : Nat)
    (user : User) (template : ProjectTemplate)
    (hu : findCaller db clerk = some user)
    (ht : db.templates.find? (fun t => t.template_id == d.template_id &&
      t.owner_id == user.id && t.deleted_at.isNone) = some template) :
    ∃ db2 p newRoles newTasks,
      create_project_from_saved_template db d clerk now = .ok (db2, p) ∧
      db2.user_roles = db.user_roles ++ newRoles ∧
      newRoles.map (fun r => r.user_id) =
        validAssigneeIds db (template.users.getD []) ∧
      db2.tasks = db.tasks ++ newTasks ∧
      (listTruthy template.tasks = true →
        newTasks.map (fun t => t.assigned_to) =
          (template.tasks.getD []).map (fun td =>
            savedTemplateAssignee d.keep_assignees
              (validAssigneeIds db (template.users.getD [])) td.assigned_to)) ∧
      (∀ a uid, savedTemplateAssignee d.keep_assignees
          (validAssigneeIds db (template.users.getD [])) a = some uid ↔
        (d.keep_assignees = true ∧ ∃ s, a = some s ∧
          parseUUID s = some uid ∧
          uid ∈ validAssigneeIds db (template.users.getD []))) ∧
      (∀ uid, uid ∈ validAssigneeIds db (template.users.getD []) ↔
        ∃ tu ∈ template.users.getD [], parseUUID tu.user_id = some uid ∧
          ∃ w ∈ db.users, w.id = uid ∧ w.deleted_at = none) := by
  unfold create_project_from_saved_template
  rw [hu]
  dsimp only
  rw [ht]
  dsimp only
  refine ⟨_, _, _, _, rfl, rfl, ?_, rfl, ?_, ?_, ?_⟩
  · exact valid_roles_branch_eq db db.next_id now _ template.users
  · intro htruthy
    rw [htruthy]
    rw [valid_ids_branch_eq db db.next_id now _ template.users]
    by_cases hst : listTruthy template.statuses = true
    · rw [if_pos hst]
      obtain ⟨fl, hfl⟩ := lanesFromStatuses_some (template.statuses.getD [])
        db.next_id (db.next_id + 1) now (listTruthy_getD _ hst)
      rw [hfl]
      dsimp only
      apply mapWithIds_map_proj
      intro i td
      rfl
    · rw [if_neg hst]
      obtain ⟨fl, hfl⟩ := defaultLanesWithFirst_some db db.next_id
        (db.next_id + 1) now
      rw [hfl]
      dsimp only
      apply mapWithIds_map_proj
      intro i td
      rfl
  · intro a uid
    exact savedTemplateAssignee_eq_some_iff d.keep_assignees _ a uid
  · intro uid
    exact validAssigneeIds_mem db (template.users.getD []) uid

theorem saved_template_assignee_rules_witness :
    findCaller dbW2 "c" = some ownerW ∧
    dbW2.templates.find? (fun t => t.template_id == 2 &&
      t.owner_id == ownerW.id && t.deleted_at.isNone) = some tplW ∧
    (∃ db2 p newRoles newTasks,
      create_project_from_saved_template dbW2
        { template_id := 2, name := "N", keep_assignees := true } "c" 9 =
        .ok (db2, p) ∧
      db2.user_roles = dbW2.user_roles ++ newRoles ∧
      newRoles.map (fun r => r.user_id) =
        validAssigneeIds dbW2 (tplW.users.getD []) ∧
      db2.tasks = dbW2.tasks ++ newTasks ∧
      (listTruthy tplW.tasks = true →
        newTasks.map (fun t => t.assigned_to) =
          (tplW.tasks.getD []).map (fun td =>
            savedTemplateAssignee true
              (validAssigneeIds dbW2 (tplW.users.getD [])) td.assigned_to)) ∧
      (∀ a uid, savedTemplateAssignee true
          (validAssigneeIds dbW2 (tplW.users.getD [])) a = some uid ↔
        (true = true ∧ ∃ s, a = some s ∧ parseUUID s = some uid ∧
          uid ∈ validAssigneeIds dbW2 (tplW.users.getD []))) ∧
      (∀ uid, uid ∈ validAssigneeIds dbW2 (tplW.users.getD []) ↔
        ∃ tu ∈ tplW.users.getD [], parseUUID tu.user_id = some uid ∧
          ∃ w ∈ dbW2.users, w.id = uid ∧ w.deleted_at = none)) :=
  ⟨by decide, by decide,
   saved_template_assignee_rules dbW2
     { template_id := 2, name := "N", keep_assignees := true } "c" 9
     ownerW tplW (by decide) (by decide)⟩

/-- C1: in both expansion paths, live-project clone and saved-template
expansion, every task created in the new project is attached to the lane
recorded as first_lane, a lane of the new project with minimal order,
never to a lane corresponding to its original lane. -/
theorem cloned_tasks_attached_to_first_lane :
    (∀ (db : DB) (d : ProjectCreateFromTemplate) (clerk : String) (now : Nat)
        (user : User) (src : Project),
      db.wf = true →
      findCaller db clerk = some user →
      findOwnedProject db d.source_project_id user.id = some src →
      ∃ db2 p, create_project_from_template db d clerk now = .ok (db2, p) ∧
        ∀ t ∈ db2.tasks, t ∉ db.tasks →
          ∃ lane ∈ db2.swim_lanes, lane.project_id = p.project_id ∧
            t.project_swim_lane_id = lane.swim_lane_id ∧
            ∀ l2 ∈ db2.swim_lanes, l2.project_id = p.project_id →
              lane.order ≤ l2.order) ∧
    (∀ (db : DB) (d : ProjectCreateFromSavedTemplate) (clerk : String)
        (now : Nat) (user : User) (template : ProjectTemplate),
      db.wf = true →
      findCaller db clerk = some user →
      db.templates.find? (fun t => t.template_id == d.template_id &&
        t.owner_id == user.id && t.deleted_at.isNone) = some template →
      ∃ db2 p, create_project_from_saved_template db d clerk now =
          .ok (db2, p) ∧
        ∀ t ∈ db2.tasks, t ∉ db.tasks →
          ∃ lane ∈ db2.swim_lanes, lane.project_id = p.project_id ∧
            t.project_swim_lane_id = lane.swim_lane_id ∧
            ∀ l2 ∈ db2.swim_lanes, l2.project_id = p.project_id →
              lane.order ≤ l2.order) := by
  constructor
  · intro db d clerk now user src hwf hu hp
    unfold create_project_from_template
    rw [hu]
    dsimp only
    rw [hp]
    dsimp only
    refine ⟨_, _, rfl, ?_⟩
    intro t ht hnot
    dsimp only at ht
    rw [List.mem_append] at ht
    rcases ht with hold | hnew
    · exact absurd hold hnot
    · by_cases hst : d.include_statuses = true
      · rw [if_pos hst] at hnew ⊢
        rw [hst] at hnew
        simp only [Bool.and_true] at hnew
        cases hit : d.include_tasks with
        | false => rw [hit] at hnew; simp at hnew
        | true =>
          rw [hit] at hnew
          cases hfl : (cloneLanesFromSource db src.project_id db.next_id
              (db.next_id + 1) now).2 with
          | none => rw [hfl] at hnew; simp at hnew
          | some fl =>
            rw [hfl] at hnew
            dsimp only at hnew
            obtain ⟨i, st, hstm, rfl⟩ := mem_mapWithIds _ _ _ _ hnew
            obtain ⟨lane, hlmem, hlid, hlpid, hlmin⟩ :=
              cloneLanesFromSource_spec db src.project_id db.next_id
                (db.next_id + 1) now fl hfl
            refine ⟨lane, ?_, ?_, ?_, ?_⟩
            · dsimp only
              exact List.mem_append.mpr (Or.inr hlmem)
            · exact hlpid
            · exact hlid.symm
            · intro l2 hl2 hl2pid
              dsimp only at hl2 hl2pid
              rw [List.mem_append] at hl2
              rcases hl2 with h2old | h2new
              · exfalso
                have hlt := (wf_parts hwf).2.2.1 l2 h2old
                omega
              · exact hlmin l2 h2new
      · rw [if_neg hst] at hnew
        rw [Bool.not_eq_true] at hst
        rw [hst] at hnew
        simp only [Bool.and_false] at hnew
        simp at hnew
  · intro db d clerk now user template hwf hu ht
    unfold create_project_from_saved_template
    rw [hu]
    dsimp only
    rw [ht]
    dsimp only
    refine ⟨_, _, rfl, ?_⟩
    intro t htm hnot
    dsimp only at htm
    rw [List.mem_append] at htm
    rcases htm with hold | hnew
    · exact absurd hold hnot
    · cases htt : listTruthy template.tasks with
      | false => rw [htt] at hnew; simp at hnew
      | true =>
        rw [htt] at hnew
        by_cases hst : listTruthy template.statuses = true
        · rw [if_pos hst] at hnew ⊢
          cases hfl : (lanesFromStatuses (template.statuses.getD [])
              db.next_id (db.next_id + 1) now).2 with
          | none => rw [hfl] at hnew; simp at hnew
          | some fl =>
            rw [hfl] at hnew
            dsimp only at hnew
            obtain ⟨i, td, htdm, rfl⟩ := mem_mapWithIds _ _ _ _ hnew
            obtain ⟨lane, hlmem, hlid, hlpid, hlmin⟩ :=
              lanesFromStatuses_spec (template.statuses.getD []) db.next_id
                (db.next_id + 1) now fl hfl
            refine ⟨lane, ?_, ?_, ?_, ?_⟩
            · dsimp only
              exact List.mem_append.mpr (Or.inr hlmem)
            · exact hlpid
            · exact hlid.symm
            · intro l2 hl2 hl2pid
              dsimp only at hl2 hl2pid
              rw [List.mem_append] at hl2
              rcases hl2 with h2old | h2new
              · exfalso
                have hlt := (wf_parts hwf).2.2.1 l2 h2old
                omega
              · exact hlmin l2 h2new
        · rw [if_neg hst] at hnew ⊢
          cases hfl : (defaultLanesWithFirst db db.next_id
              (db.next_id + 1) now).2 with
          | none => rw [hfl] at hnew; simp at hnew
          | some fl =>
            rw [hfl] at hnew
            dsimp only at hnew
            obtain ⟨i, td, htdm, rfl⟩ := mem_mapWithIds _ _ _ _ hnew
            obtain ⟨lane, hlmem, hlid, hlpid, hlmin⟩ :=
              defaultLanesWithFirst_spec db db.next_id
                (db.next_id + 1) now fl hfl
            refine ⟨lane, ?_, ?_, ?_, ?_⟩
            · dsimp only
              exact hlmem
            · exact hlpid
            · exact hlid.symm
            · intro l2 hl2 hl2pid
              dsimp only at hl2 hl2pid
              exact hlmin l2 hl2 hl2pid

theorem cloned_tasks_attached_to_first_lane_witness :
    dbW3.wf = true ∧ findCaller dbW3 "c" = some ownerW ∧
    findOwnedProject dbW3 1 ownerW.id = some projW ∧
    (∃ db2 p, create_project_from_template dbW3
        { source_project_id := 1, name := "N", include_statuses := true,
          include_roles := true, include_users := true,
          include_tasks := true, keep_assignees := true } "c" 9 =
        .ok (db2, p) ∧
      ∀ t ∈ db2.tasks, t ∉ dbW3.tasks →
        ∃ lane ∈ db2.swim_lanes, lane.project_id = p.project_id ∧
          t.project_swim_lane_id = lane.swim_lane_id ∧
          ∀ l2 ∈ db2.swim_lanes, l2.project_id = p.project_id →
            lane.order ≤ l2.order) ∧
    dbW2.wf = true ∧ findCaller dbW2 "c" = some ownerW ∧
    (∃ db2 p, create_project_from_saved_template dbW2
        { template_id := 2, name := "N2", keep_assignees := false } "c" 9 =
        .ok (db2, p) ∧
      ∀ t ∈ db2.tasks, t ∉ dbW2.tasks →
        ∃ lane ∈ db2.swim_lanes, lane.project_id = p.project_id ∧
          t.project_swim_lane_id = lane.swim_lane_id ∧
          ∀ l2 ∈ db2.swim_lanes, l2.project_id = p.project_id →
            lane.order ≤ l2.order) :=
  ⟨by decide, by decide, by decide,
   cloned_tasks_attached_to_first_lane.1 dbW3
     { source_project_id := 1, name := "N", include_statuses := true,
       include_roles := true, include_users := true,
       include_tasks := true, keep_assignees := true } "c" 9 ownerW projW
     (by decide) (by decide) (by decide),
   by decide, by decide,
   cloned_tasks_attached_to_first_lane.2 dbW2
     { template_id := 2, name := "N2", keep_assignees := false } "c" 9
     ownerW tplW (by decide) (by decide) (by decide)⟩

end Capstone
